import Mathlib

/-! # neo-utils: native asset transfer pipeline

A shallow embedding of three Go source files of the repository

* `neoutils/smartcontract/const.go` (native asset identifiers),
* `neoutils/native_asset.go` (building and signing a raw transaction),
* `neoutils/neorpc/rpc.go` (the JSON-RPC client, `GetTokenBalance`),

followed by theorems about them.

Conventions of the embedding.

* A Go `[]byte` is a `List Nat` (each element a byte value); a Go `nil` slice
  returned next to an error is `none`.
* A Go function returning `(value, error)` from another package is an
  `Except`-valued field of a record of collaborators; the functions of the
  three files above are ordinary definitions over that record.
* A call that leaves the function (a builder stage, the signing primitive, the
  logger, the RPC transport) is recorded, in program order, in a list of calls
  returned next to the result, so that "is called with" and "is not run" are
  statements about that list.
-/

namespace NeoUtils

/-- A Go byte slice. -/
abbrev Bytes := List Nat

/-! ## `encoding/hex` (Go standard library) -/

namespace hex

/-- The two errors `hex.Decode` can return. -/
inductive DecodeError where
  | InvalidByteError (c : Nat)
  | ErrLength
  deriving DecidableEq, Repr

/-- Value of one hexadecimal digit given as a byte,
`'0'..'9'`, `'a'..'f'`, `'A'..'F'`; `none` for every other byte. -/
def fromHexChar (c : Nat) : Option Nat :=
  if 48 ≤ c ∧ c ≤ 57 then some (c - 48)
  else if 97 ≤ c ∧ c ≤ 102 then some (c - 97 + 10)
  else if 65 ≤ c ∧ c ≤ 70 then some (c - 65 + 10)
  else none

/-- Go `hex.Decode`: the source is read two bytes at a time, from the left; the
first byte that is no hexadecimal digit stops the loop with
`InvalidByteError`; a trailing single digit gives `ErrLength`. The decoded byte
is `(a << 4) | b`, which for two digit values is `a * 16 + b`. -/
def Decode : Bytes → Except DecodeError Bytes
  | [] => .ok []
  | [c] =>
    match fromHexChar c with
    | none => .error (.InvalidByteError c)
    | some _ => .error .ErrLength
  | p :: q :: rest =>
    match fromHexChar p with
    | none => .error (.InvalidByteError p)
    | some a =>
      match fromHexChar q with
      | none => .error (.InvalidByteError q)
      | some b =>
        match Decode rest with
        | .ok t => .ok ((a * 16 + b) :: t)
        | .error e => .error e

/-- Go `hex.DecodeString`, on the bytes of the string. -/
def DecodeString (s : Bytes) : Except DecodeError Bytes := Decode s

/-- The lower-case digit byte of a value below 16 (table `0123456789abcdef`). -/
def hexDigit (v : Nat) : Nat := if v < 10 then 48 + v else 97 + (v - 10)

/-- Go `hex.EncodeToString` and `fmt.Sprintf("%x", b)` on a byte slice: two
lower-case digits for every byte. -/
def EncodeToString : Bytes → Bytes
  | [] => []
  | b :: rest => hexDigit (b / 16 % 16) :: hexDigit (b % 16) :: EncodeToString rest

/-- A byte that is a hexadecimal digit. -/
def IsHexDigit (c : Nat) : Prop :=
  (48 ≤ c ∧ c ≤ 57) ∨ (97 ≤ c ∧ c ≤ 102) ∨ (65 ≤ c ∧ c ≤ 70)

instance (c : Nat) : Decidable (IsHexDigit c) := by
  unfold IsHexDigit; infer_instance

end hex

/-! ## `neoutils/smartcontract/const.go` -/

namespace smartcontract

/-- Go `type NativeAsset string`: the bytes of the string. -/
abbrev NativeAsset := Bytes

/-- The bytes of an ASCII string literal. -/
def ascii (s : String) : Bytes := s.toList.map Char.toNat

/-- The `NEO` constant of `const.go`. -/
def NEO : NativeAsset :=
  ascii "c56f33fc6ecfcd0c225c4ab356fee59390af8560be0e930faebe74a6daff7c9b"

/-- The `GAS` constant of `const.go`. -/
def GAS : NativeAsset :=
  ascii "602c79718b16e442de58778e148d0b1084e3b2dffd5de6b7b16cee7969282de7"

/-- Modelled from the spec: `reverseBytes` is a helper of package
`smartcontract` that is not among the sources at hand; the spec describes
identifiers as stored in "their little-endian byte reversal" of the displayed
hex string, so the helper returns the bytes in reverse order. -/
def reverseBytes (b : Bytes) : Bytes := b.reverse

/-- `func (n NativeAsset) ToLittleEndianBytes() []byte`: `nil` when the string
does not hex-decode, otherwise `reverseBytes` of the decoded bytes. -/
def ToLittleEndianBytes (n : NativeAsset) : Option Bytes :=
  match hex.DecodeString n with
  | .error _ => none
  | .ok b => some (reverseBytes b)

end smartcontract

/-! ## `neoutils/native_asset.go` -/

namespace neoutils

/-- The types of other files that `native_asset.go` names and passes on without
looking inside: `float64` amounts, `smartcontract.NetworkFeeAmount`,
`smartcontract.NEOAddress`, `smartcontract.Unspent`, the attribute map
`map[smartcontract.TransactionAttribute][]byte`, the types of the three
transaction fields the file assigns, the remaining fields of the transaction,
and Go's `error`. -/
structure Types where
  Amount : Type
  NetworkFeeAmount : Type
  NEOAddress : Type
  Unspent : Type
  AttributeMap : Type
  Inputs : Type
  Attributes : Type
  Outputs : Type
  Others : Type
  Error : Type

/-- The transaction value built by `smartcontract.NewContractTransaction`: the
three fields `native_asset.go` assigns, and all its other fields. -/
structure Transaction (T : Types) where
  Inputs : T.Inputs
  Attributes : T.Attributes
  Outputs : T.Outputs
  Others : T.Others

/-- The fields of `Wallet` that `native_asset.go` reads. -/
structure Wallet where
  PrivateKey : Bytes
  PublicKey : Bytes
  Address : String
  deriving DecidableEq, Repr

/-- Go `smartcontract.TransactionSignature`. -/
structure TransactionSignature where
  SignedData : Bytes
  PublicKey : Bytes
  deriving DecidableEq, Repr

/-- `type NativeAsset struct { NetworkFeeAmount smartcontract.NetworkFeeAmount }`. -/
structure NativeAsset (T : Types) where
  NetworkFeeAmount : T.NetworkFeeAmount

/-- `func UseNativeAsset(networkFeeAmount) NativeAsset`. -/
def UseNativeAsset {T : Types} (networkFeeAmount : T.NetworkFeeAmount) : NativeAsset T :=
  { NetworkFeeAmount := networkFeeAmount }

/-- The functions of other files that `GenerateRawTx` calls. A builder stage is
a method of a fresh `smartcontract.NewScriptBuilder()`, hence a function of its
arguments; a Go `(value, error)` result is an `Except`, the caller reading the
value only when the error is `nil`. -/
structure Builder (T : Types) where
  NewContractTransaction : Transaction T
  GenerateTransactionInput :
    T.Unspent → smartcontract.NativeAsset → T.Amount → T.NetworkFeeAmount →
      Except T.Error T.Inputs
  GenerateTransactionAttributes : T.AttributeMap → Except T.Error T.Attributes
  ParseNEOAddress : String → T.NEOAddress
  GenerateTransactionOutput :
    T.NEOAddress → T.NEOAddress → T.Unspent → smartcontract.NativeAsset → T.Amount →
      T.NetworkFeeAmount → Except T.Error T.Outputs
  jsonMarshal : Transaction T → Except T.Error Bytes

/-- The functions of other files that `SignRawTransaction` calls, on top of
those of `GenerateRawTx`: `json.Unmarshal` into a given transaction value,
`bytesToHex`, the signing primitive `Sign`, the methods `ToBytes` and `ToTXID`
of the transaction, and `GenerateVerificationScripts`. -/
structure Collaborators (T : Types) extends Builder T where
  jsonUnmarshal : Bytes → Transaction T → Except T.Error (Transaction T)
  bytesToHex : Bytes → String
  Sign : Bytes → String → Except T.Error Bytes
  ToBytes : Transaction T → Bytes
  ToTXID : Transaction T → String
  GenerateVerificationScripts : List TransactionSignature → Bytes

/-- A call made by `native_asset.go` into another file, with its arguments: the
builder stages, the JSON encoder and decoder, the signing primitive, the script
builder and the logger. The constructor `NewContractTransaction` and the
conversions `ParseNEOAddress`, `bytesToHex`, `ToBytes` and `ToTXID` only compute
a value and are not recorded. -/
inductive Call (T : Types) where
  | GenerateTransactionInput (unspent : T.Unspent) (asset : smartcontract.NativeAsset)
      (amount : T.Amount) (fee : T.NetworkFeeAmount)
  | GenerateTransactionAttributes (attributes : T.AttributeMap)
  | GenerateTransactionOutput (sender toAddress : T.NEOAddress) (unspent : T.Unspent)
      (asset : smartcontract.NativeAsset) (amount : T.Amount) (fee : T.NetworkFeeAmount)
  | jsonMarshal (tx : Transaction T)
  | jsonUnmarshal (txBytes : Bytes)
  | Sign (data : Bytes) (privateKeyInHex : String)
  | GenerateVerificationScripts (scripts : List TransactionSignature)
  | logPrintf (err : T.Error)

/-- What a call of `GenerateRawTx` leaves behind: the Go result pair
`([]byte, error)`, the calls it made, and the receiver `*n` after the call. -/
structure RawTxResult (T : Types) where
  bytes : Option Bytes
  err : Option T.Error
  calls : List (Call T)
  receiver : NativeAsset T

/-- What a call of `SignRawTransaction` leaves behind: the Go result triple
`([]byte, string, error)` and the calls it made. -/
structure SignResult (T : Types) where
  payload : Option Bytes
  txid : String
  err : Option T.Error
  calls : List (Call T)

/-- `func (n *NativeAsset) GenerateRawTx(fromAddress, asset, amount, to, unspent,
attributes) ([]byte, error)`. -/
def GenerateRawTx {T : Types} (c : Builder T) (n : NativeAsset T) (fromAddress : String)
    (asset : smartcontract.NativeAsset) (amount : T.Amount) (toAddress : T.NEOAddress)
    (unspent : T.Unspent) (attributes : T.AttributeMap) : RawTxResult T :=
  let tx := c.NewContractTransaction
  let calls1 := [Call.GenerateTransactionInput unspent asset amount n.NetworkFeeAmount]
  match c.GenerateTransactionInput unspent asset amount n.NetworkFeeAmount with
  | .error err => { bytes := none, err := some err, calls := calls1, receiver := n }
  | .ok txInputs =>
    let tx := { tx with Inputs := txInputs }
    let calls2 := calls1 ++ [Call.GenerateTransactionAttributes attributes]
    match c.GenerateTransactionAttributes attributes with
    | .error err => { bytes := none, err := some err, calls := calls2, receiver := n }
    | .ok txAttributes =>
      let tx := { tx with Attributes := txAttributes }
      let sender := c.ParseNEOAddress fromAddress
      let calls3 := calls2 ++
        [Call.GenerateTransactionOutput sender toAddress unspent asset amount n.NetworkFeeAmount]
      match c.GenerateTransactionOutput sender toAddress unspent asset amount n.NetworkFeeAmount with
      | .error err =>
        { bytes := none, err := some err, calls := calls3 ++ [Call.logPrintf err],
          receiver := n }
      | .ok txOutputs =>
        let tx := { tx with Outputs := txOutputs }
        let calls4 := calls3 ++ [Call.jsonMarshal tx]
        match c.jsonMarshal tx with
        | .error err => { bytes := none, err := some err, calls := calls4, receiver := n }
        | .ok b => { bytes := some b, err := none, calls := calls4, receiver := n }

/-- `func (n *NativeAsset) SignRawTransaction(wallet, txBytes) ([]byte, string, error)`. -/
def SignRawTransaction {T : Types} (c : Collaborators T) (_n : NativeAsset T)
    (wallet : Wallet) (txBytes : Bytes) : SignResult T :=
  let tx := c.NewContractTransaction
  let calls1 : List (Call T) := [Call.jsonUnmarshal txBytes]
  match c.jsonUnmarshal txBytes tx with
  | .error err => { payload := none, txid := "", err := some err, calls := calls1 }
  | .ok tx =>
    let privateKeyInHex := c.bytesToHex wallet.PrivateKey
    let calls2 := calls1 ++ [Call.Sign (c.ToBytes tx) privateKeyInHex]
    match c.Sign (c.ToBytes tx) privateKeyInHex with
    | .error err =>
      { payload := none, txid := "", err := some err, calls := calls2 ++ [Call.logPrintf err] }
    | .ok signedData =>
      let signature : TransactionSignature :=
        { SignedData := signedData, PublicKey := wallet.PublicKey }
      let scripts := [signature]
      let txScripts := c.GenerateVerificationScripts scripts
      let endPayload : Bytes := []
      let endPayload := endPayload ++ c.ToBytes tx
      let endPayload := endPayload ++ txScripts
      { payload := some endPayload, txid := c.ToTXID tx, err := none,
        calls := calls2 ++ [Call.GenerateVerificationScripts scripts] }

/-- `func (n *NativeAsset) SendNativeAssetRawTransaction(wallet, asset, amount, to,
unspent, attributes) ([]byte, string, error)`. -/
def SendNativeAssetRawTransaction {T : Types} (c : Collaborators T) (n : NativeAsset T)
    (wallet : Wallet) (asset : smartcontract.NativeAsset) (amount : T.Amount)
    (toAddress : T.NEOAddress) (unspent : T.Unspent) (attributes : T.AttributeMap) : SignResult T :=
  let r := GenerateRawTx c.toBuilder n wallet.Address asset amount toAddress unspent attributes
  match r.err, r.bytes with
  | some err, _ => { payload := none, txid := "", err := some err, calls := r.calls }
  | none, txByte =>
    let s := SignRawTransaction c n wallet (txByte.getD [])
    { s with calls := r.calls ++ s.calls }

end neoutils

/-! ## `neoutils/neorpc/rpc.go` -/

namespace neorpc

/-- Go `error`, as far as `rpc.go` looks at one: the text of `err.Error()`. -/
structure GoError where
  Error : String
  deriving DecidableEq, Repr

/-- Go `fmt.Errorf("err neoAddress(%s)", neoAddress)`. -/
def errNeoAddress (neoAddress : String) : GoError :=
  { Error := "err neoAddress(" ++ neoAddress ++ ")" }

/-- The `ErrorResponse` value as `makeError` fills it: the anonymous struct
`Error` with its `Code` and `Message`. -/
structure ErrorResponse where
  Code : Int
  Message : String
  deriving DecidableEq, Repr

/-- `func makeError(err error) *ErrorResponse`. -/
def makeError (err : GoError) : ErrorResponse :=
  { Code := -1, Message := err.Error }

/-- `TokenBalanceResponse`: the `*ErrorResponse` that `rpc.go` assigns (`nil` is
`none`) and the other fields, which only the JSON decoder writes. -/
structure TokenBalanceResponse (R : Type) where
  ErrorResponse : Option ErrorResponse
  Others : R
  deriving DecidableEq, Repr

/-- An element of a `[]interface{}` parameter list as `rpc.go` builds them. -/
inductive Param (Arg : Type) where
  | string (s : String)
  | int (i : Int)
  | list (args : List Arg)
  deriving DecidableEq, Repr

/-- The parts of an `*http.Request` that `makeRequest` sets. -/
structure HttpRequest where
  Method : String
  URL : String
  Body : Bytes
  Header : List (String × String)
  Close : Bool
  deriving DecidableEq, Repr

/-- The result triple of `btckey.B58checkdecode`. -/
structure B58Result where
  ver : Nat
  payload : Bytes
  err : Option GoError
  deriving DecidableEq, Repr

/-- `NEORPCClient`, with its endpoint as `n.Endpoint.String()` renders it. -/
structure NEORPCClient where
  Endpoint : String
  deriving DecidableEq, Repr

/-- The functions of other files and of the Go library that `GetTokenBalance`
and `makeRequest` call: `btckey.B58checkdecode`,
`NewInvokeFunctionStackByteArray`, `NewRequest`, `json.Marshal` (whose error
`makeRequest` drops), `http.NewRequest`, the HTTP round trip `httpClient.Do`
returning the body, and the JSON decoder writing into the response. -/
structure Transport (R Arg Req : Type) where
  B58checkdecode : String → B58Result
  NewInvokeFunctionStackByteArray : String → Arg
  NewRequest : String → List (Param Arg) → Req
  jsonMarshal : Req → Bytes
  httpNewRequest : String → String → Bytes → Except GoError HttpRequest
  Do : HttpRequest → Except GoError Bytes
  Decode : Bytes → TokenBalanceResponse R → TokenBalanceResponse R × Option GoError

/-- What a call of `makeRequest` leaves behind: the response value it wrote
into, its error, and the HTTP requests it sent. -/
structure RequestResult (R : Type) where
  out : TokenBalanceResponse R
  err : Option GoError
  sent : List HttpRequest

/-- `func (n *NEORPCClient) makeRequest(method, params, out) error`. Header keys
are shown in the canonical form the Go library stores. -/
def makeRequest {R Arg Req : Type} (t : Transport R Arg Req) (n : NEORPCClient)
    (method : String) (params : List (Param Arg)) (out : TokenBalanceResponse R) :
    RequestResult R :=
  let request := t.NewRequest method params
  let jsonValue := t.jsonMarshal request
  match t.httpNewRequest "POST" n.Endpoint jsonValue with
  | .error err => { out := out, err := some err, sent := [] }
  | .ok req =>
    let req := { req with Header := req.Header ++ [("Content-Type", "application/json")] }
    let kept := req.Header.filter (fun (kv : String × String) => kv.1 ≠ "Connection")
    let req := { req with Header := kept ++ [("Connection", "close")] }
    let req := { req with Close := true }
    match t.Do req with
    | .error err => { out := out, err := some err, sent := [req] }
    | .ok body =>
      match t.Decode body out with
      | (out, some err) => { out := out, err := some err, sent := [req] }
      | (out, none) => { out := out, err := none, sent := [req] }

/-- Go `fmt.Sprintf("%x", b)` on a byte slice, as a string. -/
def sprintfHex (b : Bytes) : String :=
  String.mk ((hex.EncodeToString b).map Char.ofNat)

/-- `func (n *NEORPCClient) GetTokenBalance(tokenHash, neoAddress) TokenBalanceResponse`,
with the HTTP requests sent on the way. The response starts as the Go zero
value `TokenBalanceResponse{}`. -/
def GetTokenBalance {R Arg Req : Type} [Inhabited R] (t : Transport R Arg Req)
    (n : NEORPCClient) (tokenHash neoAddress : String) :
    TokenBalanceResponse R × List HttpRequest :=
  let response : TokenBalanceResponse R := { ErrorResponse := none, Others := default }
  let args : List Arg := []
  let d := t.B58checkdecode neoAddress
  let v := d.ver
  let b := d.payload
  if v ≠ 0x17 then
    ({ response with ErrorResponse := some (makeError (errNeoAddress neoAddress)) }, [])
  else
    let adddressScriptHash := sprintfHex b
    let input := t.NewInvokeFunctionStackByteArray adddressScriptHash
    let args := args ++ [input]
    let params := [Param.string tokenHash, Param.string "balanceOf", Param.list args]
    let r := makeRequest t n "invokefunction" params response
    match r.err with
    | some err => ({ r.out with ErrorResponse := some (makeError err) }, r.sent)
    | none => (r.out, r.sent)

/-- A transport for the examples. Its stand-in for `btckey.B58checkdecode`
knows one address, which it decodes to version `0x17` and a 20-byte script
hash; every other string is an error with the zero version and a `nil`
payload. The node answers every request with one byte, the balance. -/
def exampleTransport : Transport Nat String (String × List (Param String)) where
  B58checkdecode := fun s =>
    if s = "AK2nJJpJr6o664CWJKi1QRXjqeic2zRp8y" then
      { ver := 0x17, payload := List.replicate 20 35, err := none }
    else
      { ver := 0, payload := [], err := some { Error := "Invalid base-58 check string" } }
  NewInvokeFunctionStackByteArray := fun s => s
  NewRequest := fun method params => (method, params)
  jsonMarshal := fun r => smartcontract.ascii r.1
  httpNewRequest := fun method url body =>
    if url = "" then .error { Error := "empty url" }
    else .ok { Method := method, URL := url, Body := body, Header := [], Close := false }
  Do := fun _ => .ok [42]
  Decode := fun body out =>
    match body with
    | [k] => ({ out with Others := k }, none)
    | _ => (out, some { Error := "unexpected end of JSON input" })

/-- The example transport with another decoder: on a string other than the one
address it knows, it still reports the error, but next to the version byte
`0x17` and the payload it read instead of the zero values. -/
def lenientTransport : Transport Nat String (String × List (Param String)) :=
  { exampleTransport with
    B58checkdecode := fun s =>
      if s = "AK2nJJpJr6o664CWJKi1QRXjqeic2zRp8y" then
        { ver := 0x17, payload := List.replicate 20 35, err := none }
      else
        { ver := 0x17, payload := List.replicate 20 36,
          err := some { Error := "Invalid base-58 check string: invalid checksum." } } }

/-- A client for the examples. -/
def exampleClient : NEORPCClient := { Endpoint := "http://localhost:30333" }

end neorpc

/-! ## The builder stages, from the specification

`GenerateTransactionInput`, `GenerateTransactionAttributes` and
`GenerateTransactionOutput` are methods of `smartcontract.ScriptBuilder`, a file
that is not among the sources at hand. The definitions of this section follow
the specification's sections 3, 4.1, 4.3, 4.4 and 4.5 and give one concrete
`Builder` on which `GenerateRawTx` can be run. Values are integers of minor
units, as in section 3. -/

namespace pipeline

/-- Modelled from the spec: the error kinds of section 7, which the absent
builder stages return. -/
inductive Error where
  | InsufficientFunds (shortfall : Int)
  | InvalidAmount
  | InvalidAttribute
  | InvalidAddress
  | SigningError
  | SerializationError
  deriving DecidableEq, Repr

/-- Modelled from the spec: an unspent output of section 3 (the type
`smartcontract.Unspent` is absent): prior transaction id, output index, asset
and value. -/
structure UTXO where
  txid : Bytes
  index : Nat
  asset : smartcontract.NativeAsset
  value : Int
  deriving DecidableEq, Repr

/-- Modelled from the spec: a transaction input of section 3 (absent type). -/
structure TxInput where
  txid : Bytes
  index : Nat
  deriving DecidableEq, Repr

/-- Modelled from the spec: a transaction output of section 3 (absent type). -/
structure TxOutput where
  asset : smartcontract.NativeAsset
  value : Int
  scriptHash : Bytes
  deriving DecidableEq, Repr

/-- Modelled from the spec: a transaction attribute of section 3 (absent type),
a usage tag with its payload; `fixedLength` is the payload length the tag's wire
shape demands, `none` for a variable-length tag. -/
structure Attribute where
  usage : Nat
  fixedLength : Option Nat
  payload : Bytes
  deriving DecidableEq, Repr

/-- The sum of the values of a list of unspent outputs. -/
def total (l : List UTXO) : Int := (l.map UTXO.value).sum

/-- Modelled from the spec: the accumulation of section 4.1 (absent code),
"accumulates outputs in the order provided until cumulative value >= amount +
fee"; `sum` is the value accumulated so far. -/
def accumulate (target : Int) : List UTXO → Int → List UTXO
  | [], _ => []
  | u :: rest, sum => if target ≤ sum then [] else u :: accumulate target rest (sum + u.value)

/-- Modelled from the spec: the UTXO selector of section 4.1 (absent code). It
filters the unspent set to the asset, fails with `InsufficientFunds` and the
shortfall when the total is below `amount + fee`, and otherwise returns the
consumed outputs and the change `accumulated - amount - fee`. -/
def select (unspent : List UTXO) (asset : smartcontract.NativeAsset) (amount fee : Int) :
    Except Error (List UTXO × Int) :=
  let mine := unspent.filter (fun u => u.asset = asset)
  if total mine < amount + fee then
    .error (.InsufficientFunds (amount + fee - total mine))
  else
    let used := accumulate (amount + fee) mine 0
    .ok (used, total used - amount - fee)

/-- Modelled from the spec: `ScriptBuilder.GenerateTransactionInput` (absent
code), the inputs chosen by the selector of section 4.1. -/
def GenerateTransactionInput (unspent : List UTXO) (asset : smartcontract.NativeAsset)
    (amount fee : Int) : Except Error (List TxInput) :=
  match select unspent asset amount fee with
  | .error e => .error e
  | .ok (used, _) => .ok (used.map (fun u => { txid := u.txid, index := u.index }))

/-- Modelled from the spec: `ScriptBuilder.GenerateTransactionOutput` (absent
code), the part of the assembler of section 4.4 that `GenerateRawTx` leaves to
it: "amount must be > 0, failing with `InvalidAmount` otherwise", then "exactly
one output to the recipient for `amount`, plus one change output to `sender`
for `change` when `change > 0`". Every output it returns has a value above
zero, the invariant of section 3. -/
def GenerateTransactionOutput (sender toAddress : Bytes) (unspent : List UTXO)
    (asset : smartcontract.NativeAsset) (amount fee : Int) : Except Error (List TxOutput) :=
  if amount ≤ 0 then
    .error .InvalidAmount
  else
    match select unspent asset amount fee with
    | .error e => .error e
    | .ok (_, change) =>
      let pay : TxOutput := { asset := asset, value := amount, scriptHash := toAddress }
      if 0 < change then
        .ok [pay, { asset := asset, value := change, scriptHash := sender }]
      else
        .ok [pay]

/-- Modelled from the spec: the encoding of one attribute, section 4.3 (absent
code): a fixed-shape tag carries its payload as is and fails with
`InvalidAttribute` on another length, a variable-length tag carries a length
prefix. -/
def encodeAttribute (a : Attribute) : Except Error Bytes :=
  match a.fixedLength with
  | some k => if a.payload.length = k then .ok (a.usage :: a.payload) else .error .InvalidAttribute
  | none => .ok (a.usage :: a.payload.length :: a.payload)

/-- Modelled from the spec: `ScriptBuilder.GenerateTransactionAttributes` (absent
code), section 4.3, over an ordered sequence of attributes: "encoding preserves
insertion order". -/
def GenerateTransactionAttributes : List Attribute → Except Error (List Bytes)
  | [] => .ok []
  | a :: rest =>
    match encodeAttribute a with
    | .error e => .error e
    | .ok b =>
      match GenerateTransactionAttributes rest with
      | .error e => .error e
      | .ok bs => .ok (b :: bs)

/-- The `w` little-endian bytes of an integer, modulo `2 ^ (8 * w)`. -/
def littleEndian (w : Nat) (v : Int) : Bytes :=
  (List.range w).map (fun i => ((v % (2 ^ (8 * w) : Int)).toNat / 256 ^ i) % 256)

/-- Modelled from the spec: the wire form of an input list, section 4.5 (absent
code): the count, then for each input the prior transaction id in reversed byte
order and the two-byte little-endian output index. -/
def encodeInputs (ins : List TxInput) : Bytes :=
  ins.length :: ins.flatMap (fun i => i.txid.reverse ++ littleEndian 2 i.index)

/-- Modelled from the spec: the wire form of an output list, section 4.5
(absent code): the count, then for each output the asset id in reversed byte
order, the eight-byte little-endian value and the script hash. -/
def encodeOutputs (outs : List TxOutput) : Bytes :=
  outs.length :: outs.flatMap (fun o =>
    (smartcontract.ToLittleEndianBytes o.asset).getD [] ++ littleEndian 8 o.value ++
      o.scriptHash)

/-- Modelled from the spec: the wire form of an attribute list, section 4.5
(absent code): the count, then the encoded attributes in order. -/
def encodeAttributes (atts : List Bytes) : Bytes :=
  atts.length :: atts.flatten

/-- The types of the specification's pipeline: integer amounts and fees,
addresses as script hashes, an ordered list of unspent outputs, an ordered list
of attributes, the three transaction fields in wire form, the type and version
header as the remaining fields, and the error kinds of section 7. -/
abbrev types : neoutils.Types where
  Amount := Int
  NetworkFeeAmount := Int
  NEOAddress := Bytes
  Unspent := List UTXO
  AttributeMap := List Attribute
  Inputs := Bytes
  Attributes := Bytes
  Outputs := Bytes
  Others := Nat × Nat
  Error := Error

/-- Modelled from the spec: `Transaction.ToBytes` (absent code), the layout of
section 4.5: type and version header, attribute list, input list, output list. -/
def ToBytes (tx : neoutils.Transaction types) : Bytes :=
  let hdr : Nat × Nat := tx.Others
  let atts : Bytes := tx.Attributes
  let ins : Bytes := tx.Inputs
  let outs : Bytes := tx.Outputs
  [hdr.1, hdr.2] ++ atts ++ ins ++ outs

/-- A stand-in for `json.Marshal` on a transaction: the header, then each of the
three fields behind its length. It cannot fail. -/
def marshal (tx : neoutils.Transaction types) : Bytes :=
  let hdr : Nat × Nat := tx.Others
  let atts : Bytes := tx.Attributes
  let ins : Bytes := tx.Inputs
  let outs : Bytes := tx.Outputs
  [hdr.1, hdr.2] ++ (atts.length :: atts) ++ (ins.length :: ins) ++ (outs.length :: outs)

/-- Reads one field written by `marshal`: its length, then that many bytes. -/
def readField : Bytes → Option (Bytes × Bytes)
  | [] => none
  | k :: rest => if rest.length < k then none else some (rest.take k, rest.drop k)

/-- A stand-in for `json.Unmarshal` into a transaction: the inverse of
`marshal`; bytes that `marshal` does not produce are a `SerializationError`. -/
def unmarshal (txBytes : Bytes) (_tx : neoutils.Transaction types) :
    Except Error (neoutils.Transaction types) :=
  match txBytes with
  | ty :: ver :: rest =>
    match readField rest with
    | none => .error .SerializationError
    | some (atts, rest) =>
      match readField rest with
      | none => .error .SerializationError
      | some (ins, rest) =>
        match readField rest with
        | some (outs, []) =>
          .ok { Inputs := ins, Attributes := atts, Outputs := outs, Others := (ty, ver) }
        | _ => .error .SerializationError
  | _ => .error .SerializationError

/-- A stand-in for the 32-byte cryptographic hash, which is outside the sources
at hand: some function from bytes to 32 bytes. -/
def digest (b : Bytes) : Bytes :=
  (List.range 32).map (fun i => (b.sum * (i + 1) + b.length) % 256)

/-- Modelled from the spec: `Transaction.ToTXID` (absent code), section 4.5:
the hash of the hash of the serialized transaction, in reversed byte order, as
lower-case hex. -/
def ToTXID (tx : neoutils.Transaction types) : String :=
  neorpc.sprintfHex (digest (digest (ToBytes tx))).reverse

/-- A stand-in for the signing primitive `Sign`: it fails with `SigningError`
on a key that is not 64 hex characters and otherwise returns 64 bytes computed
from the data and the key. -/
def Sign (data : Bytes) (privateKeyInHex : String) : Except Error Bytes :=
  if privateKeyInHex.length = 64 then
    .ok ((List.range 64).map (fun i =>
      (data.sum + (i + 1) * (privateKeyInHex.toList.map Char.toNat).sum) % 256))
  else
    .error .SigningError

/-- Modelled from the spec: `ScriptBuilder.GenerateVerificationScripts` (absent
code), section 4.6: for every witness in order, push the signature, push the
public key, then the signature-checking opcode. -/
def GenerateVerificationScripts (scripts : List neoutils.TransactionSignature) : Bytes :=
  scripts.flatMap (fun w =>
    (w.SignedData.length :: w.SignedData) ++ (w.PublicKey.length :: w.PublicKey) ++ [0xac])

/-- Modelled from the spec: one `Builder` made of the stages above, each
returning the wire form of its list. The fresh contract transaction is empty
with a type and version header; the address of the sender is taken as the bytes
of its text (address decoding is outside the specification's core). -/
def builder : neoutils.Builder types where
  NewContractTransaction := { Inputs := [], Attributes := [], Outputs := [], Others := (128, 0) }
  GenerateTransactionInput := fun unspent asset amount fee =>
    (GenerateTransactionInput unspent asset amount fee).map encodeInputs
  GenerateTransactionAttributes := fun attributes =>
    (GenerateTransactionAttributes attributes).map encodeAttributes
  ParseNEOAddress := smartcontract.ascii
  GenerateTransactionOutput := fun sender toAddress unspent asset amount fee =>
    (GenerateTransactionOutput sender toAddress unspent asset amount fee).map encodeOutputs
  jsonMarshal := fun tx => .ok (marshal tx)

/-- The builder above with the signing side: the stand-ins for the JSON
decoder, the hash and the signing primitive, and the script builder. -/
def collaborators : neoutils.Collaborators types where
  toBuilder := builder
  jsonUnmarshal := unmarshal
  bytesToHex := neorpc.sprintfHex
  Sign := Sign
  ToBytes := ToBytes
  ToTXID := ToTXID
  GenerateVerificationScripts := GenerateVerificationScripts

/-- One unspent output of ten units (eight decimals) of `NEO`. -/
def tenNEO : List UTXO :=
  [{ txid := List.replicate 32 7, index := 0, asset := smartcontract.NEO, value := 1000000000 }]

/-- A wallet with a 32-byte private key and a 33-byte public key. -/
def alice : neoutils.Wallet :=
  { PrivateKey := List.replicate 32 17, PublicKey := 2 :: List.replicate 32 34,
    Address := "alice" }

/-- A wallet whose private key is too short for the signing primitive. -/
def mallory : neoutils.Wallet :=
  { PrivateKey := [1, 2, 3], PublicKey := 3 :: List.replicate 32 51, Address := "mallory" }

/-- A second wallet with a well-formed key. -/
def carol : neoutils.Wallet :=
  { PrivateKey := List.replicate 32 85, PublicKey := 3 :: List.replicate 32 68,
    Address := "carol" }

/-- A recipient script hash of twenty bytes. -/
def bob : Bytes := List.replicate 20 9

/-- The bytes `GenerateRawTx` returns for the transfer of three units of `NEO`
from `alice` to `bob` out of `tenNEO`, with no fee and no attributes. -/
def transferBytes : Bytes :=
  (neoutils.GenerateRawTx builder (neoutils.UseNativeAsset (0 : Int)) "alice"
    smartcontract.NEO (300000000 : Int) bob tenNEO []).bytes.getD []

/-- The transaction that `transferBytes` decodes to. -/
def transferTx : neoutils.Transaction types :=
  (unmarshal transferBytes builder.NewContractTransaction).toOption.getD
    builder.NewContractTransaction

/-- An attribute whose tag demands twenty bytes and whose payload has three. -/
def shortScript : Attribute := { usage := 0x20, fixedLength := some 20, payload := [1, 2, 3] }

/-- A variable-length remark attribute. -/
def remark : Attribute := { usage := 0xf0, fixedLength := none, payload := [104, 105] }

/-- The signature the stand-in signer gives `alice` on `transferTx`. -/
def aliceSignature : Bytes :=
  ((Sign (ToBytes transferTx) (neorpc.sprintfHex alice.PrivateKey)).toOption).getD []

/-- Bytes that are no marshalled transaction. -/
def garbage : Bytes := [1, 2, 3]

end pipeline

end NeoUtils

namespace NeoUtils

set_option maxRecDepth 100000

/-! ## Theorems: `const.go` -/

namespace hex

theorem fromHexChar_isSome_of_digit {c : Nat} (h : IsHexDigit c) :
    ∃ v, fromHexChar c = some v ∧ v < 16 := by
  unfold IsHexDigit at h
  unfold fromHexChar
  split_ifs with h1 h2 h3
  · exact ⟨_, rfl, by omega⟩
  · exact ⟨_, rfl, by omega⟩
  · exact ⟨_, rfl, by omega⟩
  · omega

theorem Decode_ok_of_digits : ∀ n : Bytes, n.length % 2 = 0 → (∀ c ∈ n, IsHexDigit c) →
    ∃ b, Decode n = .ok b ∧ b.length = n.length / 2 ∧ ∀ x ∈ b, x < 256
  | [], _, _ => ⟨[], rfl, rfl, by simp⟩
  | [_], h, _ => by simp at h
  | p :: q :: rest, h, hd => by
    have hrest : rest.length % 2 = 0 := by
      simp only [List.length_cons] at h
      omega
    obtain ⟨t, ht, hlen, hlt⟩ :=
      Decode_ok_of_digits rest hrest (fun c hc => hd c (by simp [hc]))
    obtain ⟨a, ha, ha16⟩ := fromHexChar_isSome_of_digit (hd p (by simp))
    obtain ⟨b, hb, hb16⟩ := fromHexChar_isSome_of_digit (hd q (by simp))
    refine ⟨(a * 16 + b) :: t, ?_, ?_, ?_⟩
    · simp [Decode, ha, hb, ht]
    · simp only [List.length_cons, hlen]
      omega
    · intro x hx
      rcases List.mem_cons.mp hx with rfl | hx
      · omega
      · exact hlt x hx

theorem Decode_ok_digits : ∀ (n b : Bytes), Decode n = .ok b →
    n.length % 2 = 0 ∧ ∀ c ∈ n, IsHexDigit c
  | [], _, _ => by simp
  | [c], b, h => by
    unfold Decode at h
    split at h <;> simp at h
  | p :: q :: rest, b, h => by
    unfold Decode at h
    split at h
    · simp at h
    · rename_i a ha
      split at h
      · simp at h
      · rename_i b2 hb
        split at h
        · rename_i t ht
          obtain ⟨hl, hd⟩ := Decode_ok_digits rest t ht
          have hp : IsHexDigit p := by
            unfold fromHexChar at ha
            unfold IsHexDigit
            split_ifs at ha <;> omega
          have hq : IsHexDigit q := by
            unfold fromHexChar at hb
            unfold IsHexDigit
            split_ifs at hb <;> omega
          refine ⟨by simp only [List.length_cons]; omega, ?_⟩
          intro c hc
          rcases List.mem_cons.mp hc with rfl | hc
          · exact hp
          rcases List.mem_cons.mp hc with rfl | hc
          · exact hq
          · exact hd c hc
        · simp at h

end hex

namespace smartcontract

/-- Claim C1. For every native asset whose text is a valid hexadecimal string
(an even number of bytes, each a hexadecimal digit, which is exactly when
`hex.DecodeString` succeeds), `ToLittleEndianBytes` returns the hex-decoded
bytes in reverse order: the result has `len(n)/2` bytes and its `i`-th byte is
byte `len(n)/2 - 1 - i` of the decoded identifier. For `NEO` and `GAS` the
result has 32 bytes, and the result for `NEO` starts with `0x9b` and ends with
`0xc5`. -/
theorem ToLittleEndianBytes_is_reversed_decoding :
    (∀ n : NativeAsset, n.length % 2 = 0 → (∀ c ∈ n, hex.IsHexDigit c) →
      ∃ b out, hex.DecodeString n = .ok b ∧ ToLittleEndianBytes n = some out ∧
        out = b.reverse ∧ out.length = n.length / 2 ∧
        ∀ i, i < n.length / 2 → out[i]? = b[n.length / 2 - 1 - i]?) ∧
    (∀ n : NativeAsset, (∃ b, hex.DecodeString n = .ok b) ↔
      (n.length % 2 = 0 ∧ ∀ c ∈ n, hex.IsHexDigit c)) ∧
    (ToLittleEndianBytes NEO).map List.length = some 32 ∧
    (ToLittleEndianBytes GAS).map List.length = some 32 ∧
    (ToLittleEndianBytes NEO).bind List.head? = some 0x9b ∧
    (ToLittleEndianBytes NEO).bind List.getLast? = some 0xc5 := by
  refine ⟨?_, ?_, by decide, by decide, by decide, by decide⟩
  · intro n hlen hdig
    obtain ⟨b, hb, hl, -⟩ := hex.Decode_ok_of_digits n hlen hdig
    refine ⟨b, b.reverse, hb, ?_, rfl, by simpa using hl, ?_⟩
    · simp [ToLittleEndianBytes, hex.DecodeString, hb, reverseBytes]
    · intro i hi
      rw [← hl] at hi ⊢
      exact List.getElem?_reverse hi
  · intro n
    constructor
    · rintro ⟨b, hb⟩
      exact hex.Decode_ok_digits n b hb
    · rintro ⟨hlen, hdig⟩
      obtain ⟨b, hb, -⟩ := hex.Decode_ok_of_digits n hlen hdig
      exact ⟨b, hb⟩

/-- The statement of C1 at the four-character identifier `0aFf`: it decodes to
the bytes `0x0a, 0xff` and is stored as `0xff, 0x0a`. -/
theorem ToLittleEndianBytes_is_reversed_decoding_witness :
    ∃ b out, hex.DecodeString (ascii "0aFf") = .ok b ∧
      ToLittleEndianBytes (ascii "0aFf") = some out ∧
      out = b.reverse ∧ out.length = (ascii "0aFf").length / 2 ∧
      ∀ i, i < (ascii "0aFf").length / 2 →
        out[i]? = b[(ascii "0aFf").length / 2 - 1 - i]? :=
  ToLittleEndianBytes_is_reversed_decoding.1 (ascii "0aFf") (by decide) (by decide)

end smartcontract

end NeoUtils

namespace NeoUtils

set_option maxRecDepth 100000

/-! ## Theorems: `SignRawTransaction` -/

namespace neoutils

theorem SignRawTransaction_of_decode_error {T : Types} (c : Collaborators T)
    (n : NativeAsset T) (wallet : Wallet) (txBytes : Bytes) (e : T.Error)
    (hdec : c.jsonUnmarshal txBytes c.NewContractTransaction = .error e) :
    SignRawTransaction c n wallet txBytes =
      { payload := none, txid := "", err := some e, calls := [Call.jsonUnmarshal txBytes] } := by
  simp [SignRawTransaction, hdec]

theorem SignRawTransaction_of_sign_error {T : Types} (c : Collaborators T)
    (n : NativeAsset T) (wallet : Wallet) (txBytes : Bytes) (tx : Transaction T) (e : T.Error)
    (hdec : c.jsonUnmarshal txBytes c.NewContractTransaction = .ok tx)
    (hsig : c.Sign (c.ToBytes tx) (c.bytesToHex wallet.PrivateKey) = .error e) :
    SignRawTransaction c n wallet txBytes =
      { payload := none, txid := "", err := some e,
        calls := [Call.jsonUnmarshal txBytes,
          Call.Sign (c.ToBytes tx) (c.bytesToHex wallet.PrivateKey), Call.logPrintf e] } := by
  simp [SignRawTransaction, hdec, hsig]

theorem SignRawTransaction_of_signed {T : Types} (c : Collaborators T)
    (n : NativeAsset T) (wallet : Wallet) (txBytes : Bytes) (tx : Transaction T)
    (signedData : Bytes)
    (hdec : c.jsonUnmarshal txBytes c.NewContractTransaction = .ok tx)
    (hsig : c.Sign (c.ToBytes tx) (c.bytesToHex wallet.PrivateKey) = .ok signedData) :
    SignRawTransaction c n wallet txBytes =
      { payload := some (c.ToBytes tx ++ c.GenerateVerificationScripts
          [{ SignedData := signedData, PublicKey := wallet.PublicKey }]),
        txid := c.ToTXID tx, err := none,
        calls := [Call.jsonUnmarshal txBytes,
          Call.Sign (c.ToBytes tx) (c.bytesToHex wallet.PrivateKey),
          Call.GenerateVerificationScripts
            [{ SignedData := signedData, PublicKey := wallet.PublicKey }]] } := by
  simp [SignRawTransaction, hdec, hsig]

/-- A successful `SignRawTransaction` decoded its input and signed it. -/
theorem SignRawTransaction_ok_inv {T : Types} (c : Collaborators T)
    (n : NativeAsset T) (wallet : Wallet) (txBytes : Bytes)
    (hok : (SignRawTransaction c n wallet txBytes).err = none) :
    ∃ tx signedData,
      c.jsonUnmarshal txBytes c.NewContractTransaction = .ok tx ∧
      c.Sign (c.ToBytes tx) (c.bytesToHex wallet.PrivateKey) = .ok signedData := by
  cases hdec : c.jsonUnmarshal txBytes c.NewContractTransaction with
  | error e => simp [SignRawTransaction_of_decode_error c n wallet txBytes e hdec] at hok
  | ok tx =>
    cases hsig : c.Sign (c.ToBytes tx) (c.bytesToHex wallet.PrivateKey) with
    | error e => simp [SignRawTransaction_of_sign_error c n wallet txBytes tx e hdec hsig] at hok
    | ok signedData => exact ⟨tx, signedData, rfl, hsig⟩

/-- Claim C2. Whenever `SignRawTransaction` succeeds (its error is `nil`), the
transaction decoded from `txBytes` and the signature exist, and the returned
payload is `tx.ToBytes()` followed by the verification script bytes and nothing
else: its length is the sum of the two lengths, the serialized transaction is
a prefix of it, and what follows that prefix is the verification script. -/
theorem SignRawTransaction_payload_is_serialized_then_script {T : Types}
    (c : Collaborators T) (n : NativeAsset T) (wallet : Wallet) (txBytes : Bytes)
    (hok : (SignRawTransaction c n wallet txBytes).err = none) :
    ∃ tx signedData payload,
      c.jsonUnmarshal txBytes c.NewContractTransaction = .ok tx ∧
      c.Sign (c.ToBytes tx) (c.bytesToHex wallet.PrivateKey) = .ok signedData ∧
      (SignRawTransaction c n wallet txBytes).payload = some payload ∧
      payload = c.ToBytes tx ++
        c.GenerateVerificationScripts [{ SignedData := signedData, PublicKey := wallet.PublicKey }] ∧
      payload.length = (c.ToBytes tx).length +
        (c.GenerateVerificationScripts
          [{ SignedData := signedData, PublicKey := wallet.PublicKey }]).length ∧
      c.ToBytes tx <+: payload ∧
      payload.drop (c.ToBytes tx).length =
        c.GenerateVerificationScripts [{ SignedData := signedData, PublicKey := wallet.PublicKey }] := by
  obtain ⟨tx, signedData, hdec, hsig⟩ := SignRawTransaction_ok_inv c n wallet txBytes hok
  refine ⟨tx, signedData, _, hdec, hsig, ?_, rfl, ?_, ?_, ?_⟩
  · rw [SignRawTransaction_of_signed c n wallet txBytes tx signedData hdec hsig]
  · simp
  · exact List.prefix_append _ _
  · simp

/-- The statement of C2 on the pipeline of the specification: the wallet
`alice` signs the transfer of three units out of a ten-unit output. -/
theorem SignRawTransaction_payload_is_serialized_then_script_witness :
    ∃ tx signedData payload,
      pipeline.unmarshal pipeline.transferBytes
          pipeline.collaborators.NewContractTransaction = .ok tx ∧
      pipeline.Sign (pipeline.ToBytes tx) (neorpc.sprintfHex pipeline.alice.PrivateKey) =
        .ok signedData ∧
      (SignRawTransaction pipeline.collaborators (UseNativeAsset (0 : Int)) pipeline.alice
          pipeline.transferBytes).payload = some payload ∧
      payload = pipeline.ToBytes tx ++
        pipeline.GenerateVerificationScripts
          [{ SignedData := signedData, PublicKey := pipeline.alice.PublicKey }] ∧
      payload.length = (pipeline.ToBytes tx).length +
        (pipeline.GenerateVerificationScripts
          [{ SignedData := signedData, PublicKey := pipeline.alice.PublicKey }]).length ∧
      pipeline.ToBytes tx <+: payload ∧
      payload.drop (pipeline.ToBytes tx).length =
        pipeline.GenerateVerificationScripts
          [{ SignedData := signedData, PublicKey := pipeline.alice.PublicKey }] :=
  SignRawTransaction_payload_is_serialized_then_script pipeline.collaborators
    (UseNativeAsset (0 : Int)) pipeline.alice pipeline.transferBytes (by decide)

/-- Claim C3. The transaction id returned by `SignRawTransaction` is computed
from the unsigned transaction alone. For every `txBytes` and every two wallets
on which `SignRawTransaction` succeeds the two ids are equal, also when the
signing primitive of the second run is a different function (a randomised
signer); and the id is `ToTXID` of the transaction decoded from `txBytes`. -/
theorem SignRawTransaction_txid_from_unsigned_transaction {T : Types}
    (c : Collaborators T) (sign₂ : Bytes → String → Except T.Error Bytes)
    (n₁ n₂ : NativeAsset T) (wallet₁ wallet₂ : Wallet) (txBytes : Bytes)
    (h₁ : (SignRawTransaction c n₁ wallet₁ txBytes).err = none)
    (h₂ : (SignRawTransaction { c with Sign := sign₂ } n₂ wallet₂ txBytes).err = none) :
    (SignRawTransaction c n₁ wallet₁ txBytes).txid =
        (SignRawTransaction { c with Sign := sign₂ } n₂ wallet₂ txBytes).txid ∧
      ∃ tx, c.jsonUnmarshal txBytes c.NewContractTransaction = .ok tx ∧
        (SignRawTransaction c n₁ wallet₁ txBytes).txid = c.ToTXID tx := by
  obtain ⟨tx, sd₁, hdec, hsig₁⟩ := SignRawTransaction_ok_inv c n₁ wallet₁ txBytes h₁
  obtain ⟨tx₂, sd₂, hdec₂, hsig₂⟩ :=
    SignRawTransaction_ok_inv { c with Sign := sign₂ } n₂ wallet₂ txBytes h₂
  have htx : tx₂ = tx := by
    have h : Except.ok tx₂ = Except.ok tx := hdec₂.symm.trans hdec
    exact Except.ok.inj h
  rw [htx] at hdec₂ hsig₂
  rw [SignRawTransaction_of_signed c n₁ wallet₁ txBytes tx sd₁ hdec hsig₁,
    SignRawTransaction_of_signed { c with Sign := sign₂ } n₂ wallet₂ txBytes tx sd₂ hdec₂ hsig₂]
  exact ⟨rfl, tx, hdec, rfl⟩

/-- The statement of C3 on the pipeline of the specification: `alice` and
`carol` sign the same transfer, the second signature being the first signer's
bytes reversed; both runs return the same transaction id. -/
theorem SignRawTransaction_txid_from_unsigned_transaction_witness :
    (SignRawTransaction pipeline.collaborators (UseNativeAsset (0 : Int)) pipeline.alice
        pipeline.transferBytes).txid =
      (SignRawTransaction
        { pipeline.collaborators with
          Sign := fun d k => (pipeline.Sign d k).map List.reverse }
        (UseNativeAsset (5 : Int)) pipeline.carol pipeline.transferBytes).txid ∧
    ∃ tx, pipeline.collaborators.jsonUnmarshal pipeline.transferBytes
        pipeline.collaborators.NewContractTransaction = .ok tx ∧
      (SignRawTransaction pipeline.collaborators (UseNativeAsset (0 : Int)) pipeline.alice
        pipeline.transferBytes).txid = pipeline.collaborators.ToTXID tx :=
  SignRawTransaction_txid_from_unsigned_transaction pipeline.collaborators
    (fun d k => (pipeline.Sign d k).map List.reverse)
    (UseNativeAsset (0 : Int)) (UseNativeAsset (5 : Int)) pipeline.alice pipeline.carol
    pipeline.transferBytes (by decide) (by decide)

/-- Claim C4. `SignRawTransaction` signs the raw serialized bytes, not a hash
of them. Once `txBytes` decodes to `tx`, the signing primitive is called
exactly once, with `tx.ToBytes()` and the hex form of `wallet.PrivateKey`; and
when it returns a signature, the verification script is built by one call of
`GenerateVerificationScripts` on the one-element list whose witness holds that
signature as `SignedData` and `wallet.PublicKey` as `PublicKey`, the script
being what follows `tx.ToBytes()` in the payload. -/
theorem SignRawTransaction_signs_serialized_bytes {T : Types}
    (c : Collaborators T) (n : NativeAsset T) (wallet : Wallet) (txBytes : Bytes)
    (tx : Transaction T)
    (hdec : c.jsonUnmarshal txBytes c.NewContractTransaction = .ok tx) :
    (∃ last, (SignRawTransaction c n wallet txBytes).calls =
      [Call.jsonUnmarshal txBytes,
        Call.Sign (c.ToBytes tx) (c.bytesToHex wallet.PrivateKey), last] ∧
      ∀ data key, last ≠ Call.Sign data key) ∧
    (∀ data key, Call.Sign data key ∈ (SignRawTransaction c n wallet txBytes).calls →
      data = c.ToBytes tx ∧ key = c.bytesToHex wallet.PrivateKey) ∧
    (∀ signedData,
      c.Sign (c.ToBytes tx) (c.bytesToHex wallet.PrivateKey) = .ok signedData →
      (SignRawTransaction c n wallet txBytes).calls =
        [Call.jsonUnmarshal txBytes,
          Call.Sign (c.ToBytes tx) (c.bytesToHex wallet.PrivateKey),
          Call.GenerateVerificationScripts
            [{ SignedData := signedData, PublicKey := wallet.PublicKey }]] ∧
      (SignRawTransaction c n wallet txBytes).payload =
        some (c.ToBytes tx ++ c.GenerateVerificationScripts
          [{ SignedData := signedData, PublicKey := wallet.PublicKey }])) := by
  cases hsig : c.Sign (c.ToBytes tx) (c.bytesToHex wallet.PrivateKey) with
  | error e =>
    rw [SignRawTransaction_of_sign_error c n wallet txBytes tx e hdec hsig]
    refine ⟨⟨_, rfl, by intro _ _ h; cases h⟩, ?_, ?_⟩
    · intro data key h
      simp at h
      exact h
    · intro sd h
      cases h
  | ok signedData =>
    rw [SignRawTransaction_of_signed c n wallet txBytes tx signedData hdec hsig]
    refine ⟨⟨_, rfl, by intro _ _ h; cases h⟩, ?_, ?_⟩
    · intro data key h
      simp at h
      exact h
    · intro sd h
      cases h
      exact ⟨rfl, rfl⟩

/-- The statement of C4 on the pipeline of the specification, for `alice`
signing the transfer `transferBytes`: the three calls made, in order. -/
theorem SignRawTransaction_signs_serialized_bytes_witness :
    (SignRawTransaction pipeline.collaborators (UseNativeAsset (0 : Int)) pipeline.alice
        pipeline.transferBytes).calls =
      [Call.jsonUnmarshal pipeline.transferBytes,
        Call.Sign (pipeline.ToBytes pipeline.transferTx)
          (neorpc.sprintfHex pipeline.alice.PrivateKey),
        Call.GenerateVerificationScripts
          [{ SignedData := pipeline.aliceSignature,
             PublicKey := pipeline.alice.PublicKey }]] :=
  ((SignRawTransaction_signs_serialized_bytes pipeline.collaborators (UseNativeAsset (0 : Int))
    pipeline.alice pipeline.transferBytes pipeline.transferTx rfl).2.2
    pipeline.aliceSignature rfl).1

/-- Claim C5. `SignRawTransaction` fails without a partial result. When
decoding `txBytes` fails, or when the signing primitive returns an error, it
returns that same error with a `nil` payload and an empty transaction id; it
returns a `nil` error only when both decoding and signing succeeded; and an
error never comes with a payload or an id. -/
theorem SignRawTransaction_fails_without_result {T : Types}
    (c : Collaborators T) (n : NativeAsset T) (wallet : Wallet) (txBytes : Bytes) :
    (∀ e, c.jsonUnmarshal txBytes c.NewContractTransaction = .error e →
      (SignRawTransaction c n wallet txBytes).err = some e ∧
      (SignRawTransaction c n wallet txBytes).payload = none ∧
      (SignRawTransaction c n wallet txBytes).txid = "") ∧
    (∀ tx e, c.jsonUnmarshal txBytes c.NewContractTransaction = .ok tx →
      c.Sign (c.ToBytes tx) (c.bytesToHex wallet.PrivateKey) = .error e →
      (SignRawTransaction c n wallet txBytes).err = some e ∧
      (SignRawTransaction c n wallet txBytes).payload = none ∧
      (SignRawTransaction c n wallet txBytes).txid = "") ∧
    ((SignRawTransaction c n wallet txBytes).err = none →
      ∃ tx signedData,
        c.jsonUnmarshal txBytes c.NewContractTransaction = .ok tx ∧
        c.Sign (c.ToBytes tx) (c.bytesToHex wallet.PrivateKey) = .ok signedData) ∧
    ((SignRawTransaction c n wallet txBytes).err ≠ none →
      (SignRawTransaction c n wallet txBytes).payload = none ∧
      (SignRawTransaction c n wallet txBytes).txid = "") := by
  refine ⟨?_, ?_, SignRawTransaction_ok_inv c n wallet txBytes, ?_⟩
  · intro e hdec
    rw [SignRawTransaction_of_decode_error c n wallet txBytes e hdec]
    exact ⟨rfl, rfl, rfl⟩
  · intro tx e hdec hsig
    rw [SignRawTransaction_of_sign_error c n wallet txBytes tx e hdec hsig]
    exact ⟨rfl, rfl, rfl⟩
  · intro herr
    cases hdec : c.jsonUnmarshal txBytes c.NewContractTransaction with
    | error e =>
      rw [SignRawTransaction_of_decode_error c n wallet txBytes e hdec]
      exact ⟨rfl, rfl⟩
    | ok tx =>
      cases hsig : c.Sign (c.ToBytes tx) (c.bytesToHex wallet.PrivateKey) with
      | error e =>
        rw [SignRawTransaction_of_sign_error c n wallet txBytes tx e hdec hsig]
        exact ⟨rfl, rfl⟩
      | ok signedData =>
        rw [SignRawTransaction_of_signed c n wallet txBytes tx signedData hdec hsig] at herr
        exact absurd rfl herr

/-- The statement of C5 on the pipeline of the specification: bytes that do not
decode give a `SerializationError`, the short key of `mallory` gives a
`SigningError`, each with no payload and no id. -/
theorem SignRawTransaction_fails_without_result_witness :
    ((SignRawTransaction pipeline.collaborators (UseNativeAsset (0 : Int)) pipeline.alice
        pipeline.garbage).err = some pipeline.Error.SerializationError ∧
      (SignRawTransaction pipeline.collaborators (UseNativeAsset (0 : Int)) pipeline.alice
        pipeline.garbage).payload = none ∧
      (SignRawTransaction pipeline.collaborators (UseNativeAsset (0 : Int)) pipeline.alice
        pipeline.garbage).txid = "") ∧
    ((SignRawTransaction pipeline.collaborators (UseNativeAsset (0 : Int)) pipeline.mallory
        pipeline.transferBytes).err = some pipeline.Error.SigningError ∧
      (SignRawTransaction pipeline.collaborators (UseNativeAsset (0 : Int)) pipeline.mallory
        pipeline.transferBytes).payload = none ∧
      (SignRawTransaction pipeline.collaborators (UseNativeAsset (0 : Int)) pipeline.mallory
        pipeline.transferBytes).txid = "") :=
  ⟨(SignRawTransaction_fails_without_result pipeline.collaborators (UseNativeAsset (0 : Int))
      pipeline.alice pipeline.garbage).1 pipeline.Error.SerializationError rfl,
    (SignRawTransaction_fails_without_result pipeline.collaborators (UseNativeAsset (0 : Int))
      pipeline.mallory pipeline.transferBytes).2.1
      pipeline.transferTx pipeline.Error.SigningError rfl rfl⟩

/-! ## Theorems: `GenerateRawTx` -/

theorem GenerateRawTx_of_input_error {T : Types} (c : Builder T) (n : NativeAsset T)
    (fromAddress : String) (asset : smartcontract.NativeAsset) (amount : T.Amount)
    (toAddress : T.NEOAddress) (unspent : T.Unspent) (attributes : T.AttributeMap)
    (e : T.Error)
    (hin : c.GenerateTransactionInput unspent asset amount n.NetworkFeeAmount = .error e) :
    GenerateRawTx c n fromAddress asset amount toAddress unspent attributes =
      { bytes := none, err := some e,
        calls := [Call.GenerateTransactionInput unspent asset amount n.NetworkFeeAmount],
        receiver := n } := by
  simp [GenerateRawTx, hin]

theorem GenerateRawTx_of_attributes_error {T : Types} (c : Builder T) (n : NativeAsset T)
    (fromAddress : String) (asset : smartcontract.NativeAsset) (amount : T.Amount)
    (toAddress : T.NEOAddress) (unspent : T.Unspent) (attributes : T.AttributeMap)
    (txInputs : T.Inputs) (e : T.Error)
    (hin : c.GenerateTransactionInput unspent asset amount n.NetworkFeeAmount = .ok txInputs)
    (hat : c.GenerateTransactionAttributes attributes = .error e) :
    GenerateRawTx c n fromAddress asset amount toAddress unspent attributes =
      { bytes := none, err := some e,
        calls := [Call.GenerateTransactionInput unspent asset amount n.NetworkFeeAmount,
          Call.GenerateTransactionAttributes attributes],
        receiver := n } := by
  simp [GenerateRawTx, hin, hat]

theorem GenerateRawTx_of_output_error {T : Types} (c : Builder T) (n : NativeAsset T)
    (fromAddress : String) (asset : smartcontract.NativeAsset) (amount : T.Amount)
    (toAddress : T.NEOAddress) (unspent : T.Unspent) (attributes : T.AttributeMap)
    (txInputs : T.Inputs) (txAttributes : T.Attributes) (e : T.Error)
    (hin : c.GenerateTransactionInput unspent asset amount n.NetworkFeeAmount = .ok txInputs)
    (hat : c.GenerateTransactionAttributes attributes = .ok txAttributes)
    (hout : c.GenerateTransactionOutput (c.ParseNEOAddress fromAddress) toAddress unspent asset
      amount n.NetworkFeeAmount = .error e) :
    GenerateRawTx c n fromAddress asset amount toAddress unspent attributes =
      { bytes := none, err := some e,
        calls := [Call.GenerateTransactionInput unspent asset amount n.NetworkFeeAmount,
          Call.GenerateTransactionAttributes attributes,
          Call.GenerateTransactionOutput (c.ParseNEOAddress fromAddress) toAddress unspent
            asset amount n.NetworkFeeAmount,
          Call.logPrintf e],
        receiver := n } := by
  simp [GenerateRawTx, hin, hat, hout]

theorem GenerateRawTx_of_marshal_error {T : Types} (c : Builder T) (n : NativeAsset T)
    (fromAddress : String) (asset : smartcontract.NativeAsset) (amount : T.Amount)
    (toAddress : T.NEOAddress) (unspent : T.Unspent) (attributes : T.AttributeMap)
    (txInputs : T.Inputs) (txAttributes : T.Attributes) (txOutputs : T.Outputs) (e : T.Error)
    (hin : c.GenerateTransactionInput unspent asset amount n.NetworkFeeAmount = .ok txInputs)
    (hat : c.GenerateTransactionAttributes attributes = .ok txAttributes)
    (hout : c.GenerateTransactionOutput (c.ParseNEOAddress fromAddress) toAddress unspent asset
      amount n.NetworkFeeAmount = .ok txOutputs)
    (hm : c.jsonMarshal
      { Inputs := txInputs, Attributes := txAttributes, Outputs := txOutputs,
        Others := c.NewContractTransaction.Others } = .error e) :
    GenerateRawTx c n fromAddress asset amount toAddress unspent attributes =
      { bytes := none, err := some e,
        calls := [Call.GenerateTransactionInput unspent asset amount n.NetworkFeeAmount,
          Call.GenerateTransactionAttributes attributes,
          Call.GenerateTransactionOutput (c.ParseNEOAddress fromAddress) toAddress unspent
            asset amount n.NetworkFeeAmount,
          Call.jsonMarshal
            { Inputs := txInputs, Attributes := txAttributes, Outputs := txOutputs,
              Others := c.NewContractTransaction.Others }],
        receiver := n } := by
  simp [GenerateRawTx, hin, hat, hout, hm]

theorem GenerateRawTx_of_marshalled {T : Types} (c : Builder T) (n : NativeAsset T)
    (fromAddress : String) (asset : smartcontract.NativeAsset) (amount : T.Amount)
    (toAddress : T.NEOAddress) (unspent : T.Unspent) (attributes : T.AttributeMap)
    (txInputs : T.Inputs) (txAttributes : T.Attributes) (txOutputs : T.Outputs) (b : Bytes)
    (hin : c.GenerateTransactionInput unspent asset amount n.NetworkFeeAmount = .ok txInputs)
    (hat : c.GenerateTransactionAttributes attributes = .ok txAttributes)
    (hout : c.GenerateTransactionOutput (c.ParseNEOAddress fromAddress) toAddress unspent asset
      amount n.NetworkFeeAmount = .ok txOutputs)
    (hm : c.jsonMarshal
      { Inputs := txInputs, Attributes := txAttributes, Outputs := txOutputs,
        Others := c.NewContractTransaction.Others } = .ok b) :
    GenerateRawTx c n fromAddress asset amount toAddress unspent attributes =
      { bytes := some b, err := none,
        calls := [Call.GenerateTransactionInput unspent asset amount n.NetworkFeeAmount,
          Call.GenerateTransactionAttributes attributes,
          Call.GenerateTransactionOutput (c.ParseNEOAddress fromAddress) toAddress unspent
            asset amount n.NetworkFeeAmount,
          Call.jsonMarshal
            { Inputs := txInputs, Attributes := txAttributes, Outputs := txOutputs,
              Others := c.NewContractTransaction.Others }],
        receiver := n } := by
  simp [GenerateRawTx, hin, hat, hout, hm]

/-- A call of `GenerateRawTx` that returns bytes ran all three stages and the
marshaller with success. -/
theorem GenerateRawTx_bytes_inv {T : Types} (c : Builder T) (n : NativeAsset T)
    (fromAddress : String) (asset : smartcontract.NativeAsset) (amount : T.Amount)
    (toAddress : T.NEOAddress) (unspent : T.Unspent) (attributes : T.AttributeMap)
    (h : (GenerateRawTx c n fromAddress asset amount toAddress unspent attributes).err = none ∨
      (GenerateRawTx c n fromAddress asset amount toAddress unspent attributes).bytes ≠ none) :
    ∃ txInputs txAttributes txOutputs b,
      c.GenerateTransactionInput unspent asset amount n.NetworkFeeAmount = .ok txInputs ∧
      c.GenerateTransactionAttributes attributes = .ok txAttributes ∧
      c.GenerateTransactionOutput (c.ParseNEOAddress fromAddress) toAddress unspent asset
        amount n.NetworkFeeAmount = .ok txOutputs ∧
      c.jsonMarshal
        { Inputs := txInputs, Attributes := txAttributes, Outputs := txOutputs,
          Others := c.NewContractTransaction.Others } = .ok b := by
  cases hin : c.GenerateTransactionInput unspent asset amount n.NetworkFeeAmount with
  | error e =>
    rw [GenerateRawTx_of_input_error c n fromAddress asset amount toAddress unspent attributes
      e hin] at h
    simp at h
  | ok txInputs =>
    cases hat : c.GenerateTransactionAttributes attributes with
    | error e =>
      rw [GenerateRawTx_of_attributes_error c n fromAddress asset amount toAddress unspent
        attributes txInputs e hin hat] at h
      simp at h
    | ok txAttributes =>
      cases hout : c.GenerateTransactionOutput (c.ParseNEOAddress fromAddress) toAddress
          unspent asset amount n.NetworkFeeAmount with
      | error e =>
        rw [GenerateRawTx_of_output_error c n fromAddress asset amount toAddress unspent
          attributes txInputs txAttributes e hin hat hout] at h
        simp at h
      | ok txOutputs =>
        cases hm : c.jsonMarshal
            { Inputs := txInputs, Attributes := txAttributes, Outputs := txOutputs,
              Others := c.NewContractTransaction.Others } with
        | error e =>
          rw [GenerateRawTx_of_marshal_error c n fromAddress asset amount toAddress unspent
            attributes txInputs txAttributes txOutputs e hin hat hout hm] at h
          simp at h
        | ok b => exact ⟨txInputs, txAttributes, txOutputs, b, rfl, rfl, rfl, hm⟩

/-- The five ways a call of `GenerateRawTx` can end, each with the calls made. -/
theorem GenerateRawTx_cases {T : Types} (c : Builder T) (n : NativeAsset T)
    (fromAddress : String) (asset : smartcontract.NativeAsset) (amount : T.Amount)
    (toAddress : T.NEOAddress) (unspent : T.Unspent) (attributes : T.AttributeMap) :
    (∃ e, c.GenerateTransactionInput unspent asset amount n.NetworkFeeAmount = .error e ∧
      GenerateRawTx c n fromAddress asset amount toAddress unspent attributes =
        { bytes := none, err := some e,
          calls := [Call.GenerateTransactionInput unspent asset amount n.NetworkFeeAmount],
          receiver := n }) ∨
    (∃ txInputs e,
      c.GenerateTransactionInput unspent asset amount n.NetworkFeeAmount = .ok txInputs ∧
      c.GenerateTransactionAttributes attributes = .error e ∧
      GenerateRawTx c n fromAddress asset amount toAddress unspent attributes =
        { bytes := none, err := some e,
          calls := [Call.GenerateTransactionInput unspent asset amount n.NetworkFeeAmount,
            Call.GenerateTransactionAttributes attributes],
          receiver := n }) ∨
    (∃ txInputs txAttributes e,
      c.GenerateTransactionInput unspent asset amount n.NetworkFeeAmount = .ok txInputs ∧
      c.GenerateTransactionAttributes attributes = .ok txAttributes ∧
      c.GenerateTransactionOutput (c.ParseNEOAddress fromAddress) toAddress unspent asset
        amount n.NetworkFeeAmount = .error e ∧
      GenerateRawTx c n fromAddress asset amount toAddress unspent attributes =
        { bytes := none, err := some e,
          calls := [Call.GenerateTransactionInput unspent asset amount n.NetworkFeeAmount,
            Call.GenerateTransactionAttributes attributes,
            Call.GenerateTransactionOutput (c.ParseNEOAddress fromAddress) toAddress unspent
              asset amount n.NetworkFeeAmount,
            Call.logPrintf e],
          receiver := n }) ∨
    (∃ txInputs txAttributes txOutputs,
      c.GenerateTransactionInput unspent asset amount n.NetworkFeeAmount = .ok txInputs ∧
      c.GenerateTransactionAttributes attributes = .ok txAttributes ∧
      c.GenerateTransactionOutput (c.ParseNEOAddress fromAddress) toAddress unspent asset
        amount n.NetworkFeeAmount = .ok txOutputs ∧
      ((∃ e, c.jsonMarshal
          { Inputs := txInputs, Attributes := txAttributes, Outputs := txOutputs,
            Others := c.NewContractTransaction.Others } = .error e ∧
        GenerateRawTx c n fromAddress asset amount toAddress unspent attributes =
          { bytes := none, err := some e,
            calls := [Call.GenerateTransactionInput unspent asset amount n.NetworkFeeAmount,
              Call.GenerateTransactionAttributes attributes,
              Call.GenerateTransactionOutput (c.ParseNEOAddress fromAddress) toAddress unspent
                asset amount n.NetworkFeeAmount,
              Call.jsonMarshal
                { Inputs := txInputs, Attributes := txAttributes, Outputs := txOutputs,
                  Others := c.NewContractTransaction.Others }],
            receiver := n }) ∨
       (∃ b, c.jsonMarshal
          { Inputs := txInputs, Attributes := txAttributes, Outputs := txOutputs,
            Others := c.NewContractTransaction.Others } = .ok b ∧
        GenerateRawTx c n fromAddress asset amount toAddress unspent attributes =
          { bytes := some b, err := none,
            calls := [Call.GenerateTransactionInput unspent asset amount n.NetworkFeeAmount,
              Call.GenerateTransactionAttributes attributes,
              Call.GenerateTransactionOutput (c.ParseNEOAddress fromAddress) toAddress unspent
                asset amount n.NetworkFeeAmount,
              Call.jsonMarshal
                { Inputs := txInputs, Attributes := txAttributes, Outputs := txOutputs,
                  Others := c.NewContractTransaction.Others }],
            receiver := n }))) := by
  cases hin : c.GenerateTransactionInput unspent asset amount n.NetworkFeeAmount with
  | error e =>
    exact Or.inl ⟨e, rfl, GenerateRawTx_of_input_error c n fromAddress asset amount toAddress
      unspent attributes e hin⟩
  | ok txInputs =>
    cases hat : c.GenerateTransactionAttributes attributes with
    | error e =>
      exact Or.inr (Or.inl ⟨txInputs, e, rfl, rfl, GenerateRawTx_of_attributes_error c n
        fromAddress asset amount toAddress unspent attributes txInputs e hin hat⟩)
    | ok txAttributes =>
      cases hout : c.GenerateTransactionOutput (c.ParseNEOAddress fromAddress) toAddress
          unspent asset amount n.NetworkFeeAmount with
      | error e =>
        exact Or.inr (Or.inr (Or.inl ⟨txInputs, txAttributes, e, rfl, rfl, rfl,
          GenerateRawTx_of_output_error c n fromAddress asset amount toAddress unspent
            attributes txInputs txAttributes e hin hat hout⟩))
      | ok txOutputs =>
        refine Or.inr (Or.inr (Or.inr ⟨txInputs, txAttributes, txOutputs, rfl, rfl, rfl, ?_⟩))
        cases hm : c.jsonMarshal
            { Inputs := txInputs, Attributes := txAttributes, Outputs := txOutputs,
              Others := c.NewContractTransaction.Others } with
        | error e =>
          exact Or.inl ⟨e, rfl, GenerateRawTx_of_marshal_error c n fromAddress asset amount
            toAddress unspent attributes txInputs txAttributes txOutputs e hin hat hout hm⟩
        | ok b =>
          exact Or.inr ⟨b, rfl, GenerateRawTx_of_marshalled c n fromAddress asset amount
            toAddress unspent attributes txInputs txAttributes txOutputs b hin hat hout hm⟩

/-- The selector of the pipeline fails only for want of funds. -/
theorem pipeline_input_error_is_InsufficientFunds (unspent : List pipeline.UTXO)
    (asset : smartcontract.NativeAsset) (amount fee : Int) (e : pipeline.Error)
    (h : pipeline.builder.GenerateTransactionInput unspent asset amount fee = .error e) :
    ∃ shortfall, 0 < shortfall ∧ e = pipeline.Error.InsufficientFunds shortfall := by
  simp only [pipeline.builder, pipeline.GenerateTransactionInput, pipeline.select] at h
  split_ifs at h with hlt
  · simp only [Except.map] at h
    cases h
    exact ⟨_, by omega, rfl⟩
  · simp [Except.map] at h

/-- The attribute encoder of the pipeline fails only with `InvalidAttribute`. -/
theorem pipeline_GenerateTransactionAttributes_error :
    ∀ (attributes : List pipeline.Attribute) (e : pipeline.Error),
      pipeline.GenerateTransactionAttributes attributes = .error e →
      e = pipeline.Error.InvalidAttribute
  | [], e, h => by simp [pipeline.GenerateTransactionAttributes] at h
  | a :: rest, e, h => by
    unfold pipeline.GenerateTransactionAttributes at h
    split at h
    · rename_i e' henc
      cases h
      unfold pipeline.encodeAttribute at henc
      split at henc
      · split_ifs at henc
        cases henc
        rfl
      · cases henc
    · split at h
      · rename_i e' hrest
        cases h
        exact pipeline_GenerateTransactionAttributes_error rest _ hrest
      · cases h

theorem pipeline_attributes_error_is_InvalidAttribute (attributes : List pipeline.Attribute)
    (e : pipeline.Error)
    (h : pipeline.builder.GenerateTransactionAttributes attributes = .error e) :
    e = pipeline.Error.InvalidAttribute := by
  simp only [pipeline.builder] at h
  cases hg : pipeline.GenerateTransactionAttributes attributes with
  | error e' =>
    rw [hg] at h
    simp only [Except.map] at h
    cases h
    exact pipeline_GenerateTransactionAttributes_error attributes _ hg
  | ok bs =>
    rw [hg] at h
    simp [Except.map] at h

/-- The output stage of the pipeline rejects an amount that is not above zero. -/
theorem pipeline_output_rejects_nonpositive (sender toAddress : Bytes)
    (unspent : List pipeline.UTXO) (asset : smartcontract.NativeAsset) (amount fee : Int)
    (hamount : amount ≤ 0) :
    pipeline.builder.GenerateTransactionOutput sender toAddress unspent asset amount fee =
      .error pipeline.Error.InvalidAmount := by
  simp [pipeline.builder, pipeline.GenerateTransactionOutput, hamount, Except.map]

/-- Claim C6, as amended. On the pipeline of the specification every call of
`GenerateRawTx` with `amount <= 0` fails and returns no transaction bytes. The
error is `InvalidAmount` when input selection and attribute encoding succeed;
when input selection fails it is the selector's `InsufficientFunds`, and when
attribute encoding fails it is the encoder's `InvalidAttribute`, because
`GenerateRawTx` runs these two stages first and returns the first error. -/
theorem GenerateRawTx_nonpositive_amount_fails (n : NativeAsset pipeline.types)
    (fromAddress : String) (asset : smartcontract.NativeAsset) (amount : Int)
    (toAddress : Bytes) (unspent : List pipeline.UTXO) (attributes : List pipeline.Attribute)
    (hamount : amount ≤ 0) :
    (GenerateRawTx pipeline.builder n fromAddress asset amount toAddress unspent
      attributes).bytes = none ∧
    ((∃ e shortfall,
        pipeline.builder.GenerateTransactionInput unspent asset amount n.NetworkFeeAmount =
          .error e ∧
        e = pipeline.Error.InsufficientFunds shortfall ∧ 0 < shortfall ∧
        (GenerateRawTx pipeline.builder n fromAddress asset amount toAddress unspent
          attributes).err = some e) ∨
      (∃ txInputs,
        pipeline.builder.GenerateTransactionInput unspent asset amount n.NetworkFeeAmount =
          .ok txInputs ∧
        pipeline.builder.GenerateTransactionAttributes attributes =
          .error pipeline.Error.InvalidAttribute ∧
        (GenerateRawTx pipeline.builder n fromAddress asset amount toAddress unspent
          attributes).err = some pipeline.Error.InvalidAttribute) ∨
      (∃ txInputs txAttributes,
        pipeline.builder.GenerateTransactionInput unspent asset amount n.NetworkFeeAmount =
          .ok txInputs ∧
        pipeline.builder.GenerateTransactionAttributes attributes = .ok txAttributes ∧
        (GenerateRawTx pipeline.builder n fromAddress asset amount toAddress unspent
          attributes).err = some pipeline.Error.InvalidAmount)) := by
  have hout := pipeline_output_rejects_nonpositive
    (pipeline.builder.ParseNEOAddress fromAddress) toAddress unspent asset amount
    n.NetworkFeeAmount hamount
  rcases GenerateRawTx_cases pipeline.builder n fromAddress asset amount toAddress unspent
      attributes with
    ⟨e, h1, hr⟩ | ⟨ins, e, h1, h2, hr⟩ | ⟨ins, atts, e, h1, h2, h3, hr⟩ |
    ⟨_, _, _, _, _, h3, _⟩
  · obtain ⟨sf, hpos, hsf⟩ :=
      pipeline_input_error_is_InsufficientFunds unspent asset amount n.NetworkFeeAmount e h1
    rw [hr]
    exact ⟨rfl, Or.inl ⟨e, sf, h1, hsf, hpos, rfl⟩⟩
  · have he := pipeline_attributes_error_is_InvalidAttribute attributes e h2
    subst he
    rw [hr]
    exact ⟨rfl, Or.inr (Or.inl ⟨ins, h1, h2, rfl⟩)⟩
  · have he : e = pipeline.Error.InvalidAmount := by
      have h := h3.symm.trans hout
      exact Except.error.inj h
    subst he
    rw [hr]
    exact ⟨rfl, Or.inr (Or.inr ⟨ins, atts, h1, h2, rfl⟩)⟩
  · rw [hout] at h3
    cases h3

/-- The statement of C6, as amended, at the amount of minus one unit out of a
ten-unit output with no fee and no attributes: no bytes, `InvalidAmount`. -/
theorem GenerateRawTx_nonpositive_amount_fails_witness :
    (GenerateRawTx pipeline.builder (UseNativeAsset (0 : Int)) "alice" smartcontract.NEO
        (-100000000 : Int) pipeline.bob pipeline.tenNEO []).bytes = none ∧
    (GenerateRawTx pipeline.builder (UseNativeAsset (0 : Int)) "alice" smartcontract.NEO
        (-100000000 : Int) pipeline.bob pipeline.tenNEO []).err =
      some pipeline.Error.InvalidAmount :=
  ⟨(GenerateRawTx_nonpositive_amount_fails (UseNativeAsset (0 : Int)) "alice"
      smartcontract.NEO (-100000000 : Int) pipeline.bob pipeline.tenNEO [] (by decide)).1,
    by decide⟩

/-- Claim C6 fails as stated. With `amount = 0`, which is `<= 0`: an empty
unspent set and a fee of one minor unit make input selection, the first stage
`GenerateRawTx` runs, fail with `InsufficientFunds 1`, and that error is
returned; and with a ten-unit output, no fee and an attribute of the wrong
length, attribute encoding fails with `InvalidAttribute`, and that error is
returned. In neither call is the error `InvalidAmount`. -/
theorem GenerateRawTx_nonpositive_amount_other_error :
    (0 : Int) ≤ 0 ∧
    (GenerateRawTx pipeline.builder (UseNativeAsset (1 : Int)) "alice" smartcontract.NEO
      (0 : Int) pipeline.bob [] []).err = some (pipeline.Error.InsufficientFunds 1) ∧
    (GenerateRawTx pipeline.builder (UseNativeAsset (1 : Int)) "alice" smartcontract.NEO
      (0 : Int) pipeline.bob [] []).err ≠ some pipeline.Error.InvalidAmount ∧
    (GenerateRawTx pipeline.builder (UseNativeAsset (0 : Int)) "alice" smartcontract.NEO
      (0 : Int) pipeline.bob pipeline.tenNEO [pipeline.shortScript]).err =
      some pipeline.Error.InvalidAttribute ∧
    (GenerateRawTx pipeline.builder (UseNativeAsset (0 : Int)) "alice" smartcontract.NEO
      (0 : Int) pipeline.bob pipeline.tenNEO [pipeline.shortScript]).err ≠
      some pipeline.Error.InvalidAmount := by
  refine ⟨by decide, by decide, by decide, by decide, by decide⟩

/-- Claim C7. `GenerateRawTx` is atomic on failure. If input selection fails,
the call returns that error and `nil` bytes and makes no further call (no
attribute encoding, no output generation, no marshalling); if attribute
encoding fails, it returns that error and `nil` bytes and output generation is
not run; if output generation fails, it returns that error and `nil` bytes and
nothing is marshalled. Bytes are returned only when all three stages
succeeded, and never together with an error. -/
theorem GenerateRawTx_atomic_on_failure {T : Types} (c : Builder T) (n : NativeAsset T)
    (fromAddress : String) (asset : smartcontract.NativeAsset) (amount : T.Amount)
    (toAddress : T.NEOAddress) (unspent : T.Unspent) (attributes : T.AttributeMap) :
    (∀ e, c.GenerateTransactionInput unspent asset amount n.NetworkFeeAmount = .error e →
      (GenerateRawTx c n fromAddress asset amount toAddress unspent attributes).err = some e ∧
      (GenerateRawTx c n fromAddress asset amount toAddress unspent attributes).bytes = none ∧
      (GenerateRawTx c n fromAddress asset amount toAddress unspent attributes).calls =
        [Call.GenerateTransactionInput unspent asset amount n.NetworkFeeAmount]) ∧
    (∀ txInputs e,
      c.GenerateTransactionInput unspent asset amount n.NetworkFeeAmount = .ok txInputs →
      c.GenerateTransactionAttributes attributes = .error e →
      (GenerateRawTx c n fromAddress asset amount toAddress unspent attributes).err = some e ∧
      (GenerateRawTx c n fromAddress asset amount toAddress unspent attributes).bytes = none ∧
      (GenerateRawTx c n fromAddress asset amount toAddress unspent attributes).calls =
        [Call.GenerateTransactionInput unspent asset amount n.NetworkFeeAmount,
          Call.GenerateTransactionAttributes attributes]) ∧
    (∀ txInputs txAttributes e,
      c.GenerateTransactionInput unspent asset amount n.NetworkFeeAmount = .ok txInputs →
      c.GenerateTransactionAttributes attributes = .ok txAttributes →
      c.GenerateTransactionOutput (c.ParseNEOAddress fromAddress) toAddress unspent asset
        amount n.NetworkFeeAmount = .error e →
      (GenerateRawTx c n fromAddress asset amount toAddress unspent attributes).err = some e ∧
      (GenerateRawTx c n fromAddress asset amount toAddress unspent attributes).bytes = none ∧
      (GenerateRawTx c n fromAddress asset amount toAddress unspent attributes).calls =
        [Call.GenerateTransactionInput unspent asset amount n.NetworkFeeAmount,
          Call.GenerateTransactionAttributes attributes,
          Call.GenerateTransactionOutput (c.ParseNEOAddress fromAddress) toAddress unspent
            asset amount n.NetworkFeeAmount,
          Call.logPrintf e]) ∧
    ((GenerateRawTx c n fromAddress asset amount toAddress unspent attributes).bytes ≠ none →
      (∃ txInputs txAttributes txOutputs,
        c.GenerateTransactionInput unspent asset amount n.NetworkFeeAmount = .ok txInputs ∧
        c.GenerateTransactionAttributes attributes = .ok txAttributes ∧
        c.GenerateTransactionOutput (c.ParseNEOAddress fromAddress) toAddress unspent asset
          amount n.NetworkFeeAmount = .ok txOutputs) ∧
      (GenerateRawTx c n fromAddress asset amount toAddress unspent attributes).err = none) := by
  refine ⟨?_, ?_, ?_, ?_⟩
  · intro e hin
    rw [GenerateRawTx_of_input_error c n fromAddress asset amount toAddress unspent attributes
      e hin]
    exact ⟨rfl, rfl, rfl⟩
  · intro txInputs e hin hat
    rw [GenerateRawTx_of_attributes_error c n fromAddress asset amount toAddress unspent
      attributes txInputs e hin hat]
    exact ⟨rfl, rfl, rfl⟩
  · intro txInputs txAttributes e hin hat hout
    rw [GenerateRawTx_of_output_error c n fromAddress asset amount toAddress unspent
      attributes txInputs txAttributes e hin hat hout]
    exact ⟨rfl, rfl, rfl⟩
  · intro hb
    obtain ⟨txInputs, txAttributes, txOutputs, b, hin, hat, hout, hm⟩ :=
      GenerateRawTx_bytes_inv c n fromAddress asset amount toAddress unspent attributes
        (Or.inr hb)
    refine ⟨⟨txInputs, txAttributes, txOutputs, hin, hat, hout⟩, ?_⟩
    rw [GenerateRawTx_of_marshalled c n fromAddress asset amount toAddress unspent attributes
      txInputs txAttributes txOutputs b hin hat hout hm]

/-- The statement of C7 on the pipeline of the specification: asking for twenty
units out of a ten-unit output fails in input selection with a shortfall of
ten units and only that stage is called; an attribute of the wrong length fails
in attribute encoding and output generation is not called. -/
theorem GenerateRawTx_atomic_on_failure_witness :
    ((GenerateRawTx pipeline.builder (UseNativeAsset (0 : Int)) "alice" smartcontract.NEO
        (2000000000 : Int) pipeline.bob pipeline.tenNEO [pipeline.remark]).err =
        some (pipeline.Error.InsufficientFunds 1000000000) ∧
      (GenerateRawTx pipeline.builder (UseNativeAsset (0 : Int)) "alice" smartcontract.NEO
        (2000000000 : Int) pipeline.bob pipeline.tenNEO [pipeline.remark]).bytes = none ∧
      (GenerateRawTx pipeline.builder (UseNativeAsset (0 : Int)) "alice" smartcontract.NEO
        (2000000000 : Int) pipeline.bob pipeline.tenNEO [pipeline.remark]).calls =
        [Call.GenerateTransactionInput pipeline.tenNEO smartcontract.NEO (2000000000 : Int)
          (0 : Int)]) ∧
    ((GenerateRawTx pipeline.builder (UseNativeAsset (0 : Int)) "alice" smartcontract.NEO
        (300000000 : Int) pipeline.bob pipeline.tenNEO [pipeline.shortScript]).err =
        some pipeline.Error.InvalidAttribute ∧
      (GenerateRawTx pipeline.builder (UseNativeAsset (0 : Int)) "alice" smartcontract.NEO
        (300000000 : Int) pipeline.bob pipeline.tenNEO [pipeline.shortScript]).bytes = none ∧
      (GenerateRawTx pipeline.builder (UseNativeAsset (0 : Int)) "alice" smartcontract.NEO
        (300000000 : Int) pipeline.bob pipeline.tenNEO [pipeline.shortScript]).calls =
        [Call.GenerateTransactionInput pipeline.tenNEO smartcontract.NEO (300000000 : Int)
          (0 : Int),
         Call.GenerateTransactionAttributes [pipeline.shortScript]]) :=
  ⟨(GenerateRawTx_atomic_on_failure pipeline.builder (UseNativeAsset (0 : Int)) "alice"
      smartcontract.NEO (2000000000 : Int) pipeline.bob pipeline.tenNEO [pipeline.remark]).1
      (pipeline.Error.InsufficientFunds 1000000000) rfl,
    (GenerateRawTx_atomic_on_failure pipeline.builder (UseNativeAsset (0 : Int)) "alice"
      smartcontract.NEO (300000000 : Int) pipeline.bob pipeline.tenNEO
      [pipeline.shortScript]).2.1 _ pipeline.Error.InvalidAttribute rfl rfl⟩

/-- Claim C9. When `GenerateRawTx` succeeds, the bytes it returns are the
marshalling of the fresh contract transaction with exactly three fields
replaced: `Inputs` is the result of input selection, `Attributes` the result of
the attribute encoder as it is, `Outputs` the result of the output generator
called with the sender parsed from `fromAddress` and the recipient; every
other field is that of the fresh transaction. That transaction is the one
passed to the marshaller, as the last call. -/
theorem GenerateRawTx_replaces_three_fields {T : Types} (c : Builder T) (n : NativeAsset T)
    (fromAddress : String) (asset : smartcontract.NativeAsset) (amount : T.Amount)
    (toAddress : T.NEOAddress) (unspent : T.Unspent) (attributes : T.AttributeMap)
    (hok : (GenerateRawTx c n fromAddress asset amount toAddress unspent attributes).err = none) :
    ∃ txInputs txAttributes txOutputs tx b,
      c.GenerateTransactionInput unspent asset amount n.NetworkFeeAmount = .ok txInputs ∧
      c.GenerateTransactionAttributes attributes = .ok txAttributes ∧
      c.GenerateTransactionOutput (c.ParseNEOAddress fromAddress) toAddress unspent asset
        amount n.NetworkFeeAmount = .ok txOutputs ∧
      tx.Inputs = txInputs ∧ tx.Attributes = txAttributes ∧ tx.Outputs = txOutputs ∧
      tx.Others = c.NewContractTransaction.Others ∧
      c.jsonMarshal tx = .ok b ∧
      (GenerateRawTx c n fromAddress asset amount toAddress unspent attributes).bytes = some b ∧
      (GenerateRawTx c n fromAddress asset amount toAddress unspent attributes).calls.getLast? =
        some (Call.jsonMarshal tx) := by
  obtain ⟨txInputs, txAttributes, txOutputs, b, hin, hat, hout, hm⟩ :=
    GenerateRawTx_bytes_inv c n fromAddress asset amount toAddress unspent attributes
      (Or.inl hok)
  refine ⟨txInputs, txAttributes, txOutputs,
    { Inputs := txInputs, Attributes := txAttributes, Outputs := txOutputs,
      Others := c.NewContractTransaction.Others },
    b, hin, hat, hout, rfl, rfl, rfl, rfl, hm, ?_⟩
  rw [GenerateRawTx_of_marshalled c n fromAddress asset amount toAddress unspent attributes
    txInputs txAttributes txOutputs b hin hat hout hm]
  exact ⟨rfl, rfl⟩

/-- The statement of C9 on the pipeline of the specification: the transfer of
three units out of a ten-unit output with one remark attribute. -/
theorem GenerateRawTx_replaces_three_fields_witness :
    ∃ txInputs txAttributes txOutputs tx b,
      pipeline.builder.GenerateTransactionInput pipeline.tenNEO smartcontract.NEO
        (300000000 : Int) (UseNativeAsset (0 : Int)).NetworkFeeAmount = .ok txInputs ∧
      pipeline.builder.GenerateTransactionAttributes [pipeline.remark] = .ok txAttributes ∧
      pipeline.builder.GenerateTransactionOutput (pipeline.builder.ParseNEOAddress "alice")
        pipeline.bob pipeline.tenNEO smartcontract.NEO (300000000 : Int)
        (UseNativeAsset (0 : Int)).NetworkFeeAmount = .ok txOutputs ∧
      tx.Inputs = txInputs ∧ tx.Attributes = txAttributes ∧ tx.Outputs = txOutputs ∧
      tx.Others = pipeline.builder.NewContractTransaction.Others ∧
      pipeline.builder.jsonMarshal tx = .ok b ∧
      (GenerateRawTx pipeline.builder (UseNativeAsset (0 : Int)) "alice" smartcontract.NEO
        (300000000 : Int) pipeline.bob pipeline.tenNEO [pipeline.remark]).bytes = some b ∧
      (GenerateRawTx pipeline.builder (UseNativeAsset (0 : Int)) "alice" smartcontract.NEO
        (300000000 : Int) pipeline.bob pipeline.tenNEO [pipeline.remark]).calls.getLast? =
        some (Call.jsonMarshal tx) :=
  GenerateRawTx_replaces_three_fields pipeline.builder (UseNativeAsset (0 : Int)) "alice"
    smartcontract.NEO (300000000 : Int) pipeline.bob pipeline.tenNEO [pipeline.remark]
    (by decide)

/-- Claim C10. The network fee is the caller's override, applied consistently.
`UseNativeAsset(f).NetworkFeeAmount` is `f`. The result of every call of
`GenerateRawTx` is computed from input selection and output generation applied
to the given unspent set, asset and amount and to the fee `n.NetworkFeeAmount`:
an error of input selection at that fee is the error returned; an error of
output generation at that fee is the error returned; when both succeed at that
fee, the bytes are the marshalling of the transaction holding their two
results; and a call that succeeds did apply both at that fee. The calls
recorded say the same: the first is input selection with these arguments, every
input-selection and output-generation call carries exactly that unspent set,
asset, amount and fee, and output generation is called whenever the first two
stages succeed. The receiver is left as it was, so the fee is not modified. -/
theorem GenerateRawTx_fee_is_the_override {T : Types} (c : Builder T)
    (f : T.NetworkFeeAmount) (n : NativeAsset T)
    (fromAddress : String) (asset : smartcontract.NativeAsset) (amount : T.Amount)
    (toAddress : T.NEOAddress) (unspent : T.Unspent) (attributes : T.AttributeMap) :
    (UseNativeAsset f : NativeAsset T).NetworkFeeAmount = f ∧
    (GenerateRawTx c n fromAddress asset amount toAddress unspent attributes).calls.head? =
      some (Call.GenerateTransactionInput unspent asset amount n.NetworkFeeAmount) ∧
    (∀ u a m fee, Call.GenerateTransactionInput u a m fee ∈
        (GenerateRawTx c n fromAddress asset amount toAddress unspent attributes).calls →
      u = unspent ∧ a = asset ∧ m = amount ∧ fee = n.NetworkFeeAmount) ∧
    (∀ s t u a m fee, Call.GenerateTransactionOutput s t u a m fee ∈
        (GenerateRawTx c n fromAddress asset amount toAddress unspent attributes).calls →
      s = c.ParseNEOAddress fromAddress ∧ t = toAddress ∧
      u = unspent ∧ a = asset ∧ m = amount ∧ fee = n.NetworkFeeAmount) ∧
    (∀ txInputs txAttributes,
      c.GenerateTransactionInput unspent asset amount n.NetworkFeeAmount = .ok txInputs →
      c.GenerateTransactionAttributes attributes = .ok txAttributes →
      Call.GenerateTransactionOutput (c.ParseNEOAddress fromAddress) toAddress unspent asset
        amount n.NetworkFeeAmount ∈
        (GenerateRawTx c n fromAddress asset amount toAddress unspent attributes).calls) ∧
    (GenerateRawTx c n fromAddress asset amount toAddress unspent attributes).receiver = n ∧
    (GenerateRawTx c (UseNativeAsset f) fromAddress asset amount toAddress unspent
      attributes).receiver.NetworkFeeAmount = f ∧
    (∀ e, c.GenerateTransactionInput unspent asset amount n.NetworkFeeAmount = .error e →
      (GenerateRawTx c n fromAddress asset amount toAddress unspent attributes).err = some e ∧
      (GenerateRawTx c n fromAddress asset amount toAddress unspent attributes).bytes = none) ∧
    (∀ txInputs txAttributes e,
      c.GenerateTransactionInput unspent asset amount n.NetworkFeeAmount = .ok txInputs →
      c.GenerateTransactionAttributes attributes = .ok txAttributes →
      c.GenerateTransactionOutput (c.ParseNEOAddress fromAddress) toAddress unspent asset
        amount n.NetworkFeeAmount = .error e →
      (GenerateRawTx c n fromAddress asset amount toAddress unspent attributes).err = some e ∧
      (GenerateRawTx c n fromAddress asset amount toAddress unspent attributes).bytes = none) ∧
    (∀ txInputs txAttributes txOutputs b,
      c.GenerateTransactionInput unspent asset amount n.NetworkFeeAmount = .ok txInputs →
      c.GenerateTransactionAttributes attributes = .ok txAttributes →
      c.GenerateTransactionOutput (c.ParseNEOAddress fromAddress) toAddress unspent asset
        amount n.NetworkFeeAmount = .ok txOutputs →
      c.jsonMarshal
        { Inputs := txInputs, Attributes := txAttributes, Outputs := txOutputs,
          Others := c.NewContractTransaction.Others } = .ok b →
      (GenerateRawTx c n fromAddress asset amount toAddress unspent attributes).bytes = some b ∧
      (GenerateRawTx c n fromAddress asset amount toAddress unspent attributes).err = none) ∧
    ((GenerateRawTx c n fromAddress asset amount toAddress unspent attributes).err = none →
      ∃ txInputs txAttributes txOutputs b,
        c.GenerateTransactionInput unspent asset amount n.NetworkFeeAmount = .ok txInputs ∧
        c.GenerateTransactionAttributes attributes = .ok txAttributes ∧
        c.GenerateTransactionOutput (c.ParseNEOAddress fromAddress) toAddress unspent asset
          amount n.NetworkFeeAmount = .ok txOutputs ∧
        c.jsonMarshal
          { Inputs := txInputs, Attributes := txAttributes, Outputs := txOutputs,
            Others := c.NewContractTransaction.Others } = .ok b ∧
        (GenerateRawTx c n fromAddress asset amount toAddress unspent attributes).bytes =
          some b) := by
  refine ⟨rfl, ?_, ?_, ?_, ?_, ?_, ?_, ?_, ?_, ?_, ?_⟩
  · rcases GenerateRawTx_cases c n fromAddress asset amount toAddress unspent attributes with
      ⟨_, _, hr⟩ | ⟨_, _, _, _, hr⟩ | ⟨_, _, _, _, _, _, hr⟩ |
      ⟨_, _, _, _, _, _, ⟨_, _, hr⟩ | ⟨_, _, hr⟩⟩ <;> rw [hr] <;> rfl
  · intro u a m fee hmem
    rcases GenerateRawTx_cases c n fromAddress asset amount toAddress unspent attributes with
      ⟨_, _, hr⟩ | ⟨_, _, _, _, hr⟩ | ⟨_, _, _, _, _, _, hr⟩ |
      ⟨_, _, _, _, _, _, ⟨_, _, hr⟩ | ⟨_, _, hr⟩⟩ <;>
    · rw [hr] at hmem
      simp at hmem
      exact hmem
  · intro s t u a m fee hmem
    rcases GenerateRawTx_cases c n fromAddress asset amount toAddress unspent attributes with
      ⟨_, _, hr⟩ | ⟨_, _, _, _, hr⟩ | ⟨_, _, _, _, _, _, hr⟩ |
      ⟨_, _, _, _, _, _, ⟨_, _, hr⟩ | ⟨_, _, hr⟩⟩ <;>
    · rw [hr] at hmem
      simp at hmem
      try exact hmem
  · intro txInputs txAttributes hin hat
    rcases GenerateRawTx_cases c n fromAddress asset amount toAddress unspent attributes with
      ⟨_, h, _⟩ | ⟨_, _, _, h, _⟩ | ⟨_, _, _, _, _, _, hr⟩ |
      ⟨_, _, _, _, _, _, ⟨_, _, hr⟩ | ⟨_, _, hr⟩⟩
    · rw [hin] at h
      cases h
    · rw [hat] at h
      cases h
    · rw [hr]
      simp
    · rw [hr]
      simp
    · rw [hr]
      simp
  · rcases GenerateRawTx_cases c n fromAddress asset amount toAddress unspent attributes with
      ⟨_, _, hr⟩ | ⟨_, _, _, _, hr⟩ | ⟨_, _, _, _, _, _, hr⟩ |
      ⟨_, _, _, _, _, _, ⟨_, _, hr⟩ | ⟨_, _, hr⟩⟩ <;> rw [hr]
  · rcases GenerateRawTx_cases c (UseNativeAsset f) fromAddress asset amount toAddress unspent
      attributes with
      ⟨_, _, hr⟩ | ⟨_, _, _, _, hr⟩ | ⟨_, _, _, _, _, _, hr⟩ |
      ⟨_, _, _, _, _, _, ⟨_, _, hr⟩ | ⟨_, _, hr⟩⟩ <;> rw [hr] <;> rfl
  · intro e hin
    rw [GenerateRawTx_of_input_error c n fromAddress asset amount toAddress unspent attributes
      e hin]
    exact ⟨rfl, rfl⟩
  · intro txInputs txAttributes e hin hat hout
    rw [GenerateRawTx_of_output_error c n fromAddress asset amount toAddress unspent
      attributes txInputs txAttributes e hin hat hout]
    exact ⟨rfl, rfl⟩
  · intro txInputs txAttributes txOutputs b hin hat hout hm
    rw [GenerateRawTx_of_marshalled c n fromAddress asset amount toAddress unspent attributes
      txInputs txAttributes txOutputs b hin hat hout hm]
    exact ⟨rfl, rfl⟩
  · intro hok
    obtain ⟨txInputs, txAttributes, txOutputs, b, hin, hat, hout, hm⟩ :=
      GenerateRawTx_bytes_inv c n fromAddress asset amount toAddress unspent attributes
        (Or.inl hok)
    refine ⟨txInputs, txAttributes, txOutputs, b, hin, hat, hout, hm, ?_⟩
    rw [GenerateRawTx_of_marshalled c n fromAddress asset amount toAddress unspent attributes
      txInputs txAttributes txOutputs b hin hat hout hm]

/-- The statement of C10 on the pipeline of the specification, with a fee of one
thousand minor units: the transfer of three units out of a ten-unit output
calls output generation with that fee, and the fee shows in the bytes
returned, whose change output is ten units less three units less the fee; with
a fee above the seven units left, input selection at that fee fails and its
error is returned. -/
theorem GenerateRawTx_fee_is_the_override_witness :
    Call.GenerateTransactionOutput (pipeline.builder.ParseNEOAddress "alice") pipeline.bob
        pipeline.tenNEO smartcontract.NEO (300000000 : Int)
        (UseNativeAsset (1000 : Int) : NativeAsset pipeline.types).NetworkFeeAmount ∈
      (GenerateRawTx pipeline.builder (UseNativeAsset (1000 : Int)) "alice" smartcontract.NEO
        (300000000 : Int) pipeline.bob pipeline.tenNEO []).calls ∧
    ((GenerateRawTx pipeline.builder (UseNativeAsset (1000 : Int)) "alice" smartcontract.NEO
        (300000000 : Int) pipeline.bob pipeline.tenNEO []).bytes =
      some (pipeline.marshal
        { Inputs := pipeline.encodeInputs [{ txid := List.replicate 32 7, index := 0 }],
          Attributes := pipeline.encodeAttributes [],
          Outputs := pipeline.encodeOutputs
            [{ asset := smartcontract.NEO, value := 300000000, scriptHash := pipeline.bob },
             { asset := smartcontract.NEO, value := 699999000,
               scriptHash := smartcontract.ascii "alice" }],
          Others := (128, 0) }) ∧
      (GenerateRawTx pipeline.builder (UseNativeAsset (1000 : Int)) "alice" smartcontract.NEO
        (300000000 : Int) pipeline.bob pipeline.tenNEO []).err = none) ∧
    ((GenerateRawTx pipeline.builder (UseNativeAsset (700000001 : Int)) "alice"
        smartcontract.NEO (300000000 : Int) pipeline.bob pipeline.tenNEO []).err =
        some (pipeline.Error.InsufficientFunds 1) ∧
      (GenerateRawTx pipeline.builder (UseNativeAsset (700000001 : Int)) "alice"
        smartcontract.NEO (300000000 : Int) pipeline.bob pipeline.tenNEO []).bytes = none) :=
  ⟨(GenerateRawTx_fee_is_the_override pipeline.builder (1000 : Int) (UseNativeAsset (1000 : Int))
      "alice" smartcontract.NEO (300000000 : Int) pipeline.bob pipeline.tenNEO []).2.2.2.2.1
      _ _ rfl rfl,
    (GenerateRawTx_fee_is_the_override pipeline.builder (1000 : Int) (UseNativeAsset (1000 : Int))
      "alice" smartcontract.NEO (300000000 : Int) pipeline.bob
      pipeline.tenNEO []).2.2.2.2.2.2.2.2.2.1 _ _ _ _ rfl rfl rfl rfl,
    (GenerateRawTx_fee_is_the_override pipeline.builder (1000 : Int)
      (UseNativeAsset (700000001 : Int)) "alice" smartcontract.NEO (300000000 : Int)
      pipeline.bob pipeline.tenNEO []).2.2.2.2.2.2.2.1
      (pipeline.Error.InsufficientFunds 1) rfl⟩

end neoutils

end NeoUtils

namespace NeoUtils

/-! ## Theorems: `GetTokenBalance` -/

namespace neorpc

theorem GetTokenBalance_of_wrong_version {R Arg Req : Type} [Inhabited R]
    (t : Transport R Arg Req) (n : NEORPCClient) (tokenHash neoAddress : String)
    (hv : (t.B58checkdecode neoAddress).ver ≠ 0x17) :
    GetTokenBalance t n tokenHash neoAddress =
      ({ ErrorResponse := some (makeError (errNeoAddress neoAddress)), Others := default },
        []) := by
  simp [GetTokenBalance, hv]

/-- Past the version test `GetTokenBalance` is its request. -/
theorem GetTokenBalance_of_version {R Arg Req : Type} [Inhabited R]
    (t : Transport R Arg Req) (n : NEORPCClient) (tokenHash neoAddress : String)
    (hv : (t.B58checkdecode neoAddress).ver = 0x17) :
    GetTokenBalance t n tokenHash neoAddress =
      match (makeRequest t n "invokefunction"
          [Param.string tokenHash, Param.string "balanceOf",
            Param.list [t.NewInvokeFunctionStackByteArray
              (sprintfHex (t.B58checkdecode neoAddress).payload)]]
          { ErrorResponse := none, Others := default }).err with
      | some err =>
        ({ (makeRequest t n "invokefunction"
            [Param.string tokenHash, Param.string "balanceOf",
              Param.list [t.NewInvokeFunctionStackByteArray
                (sprintfHex (t.B58checkdecode neoAddress).payload)]]
            { ErrorResponse := none, Others := default }).out with
            ErrorResponse := some (makeError err) },
          (makeRequest t n "invokefunction"
            [Param.string tokenHash, Param.string "balanceOf",
              Param.list [t.NewInvokeFunctionStackByteArray
                (sprintfHex (t.B58checkdecode neoAddress).payload)]]
            { ErrorResponse := none, Others := default }).sent)
      | none =>
        ((makeRequest t n "invokefunction"
            [Param.string tokenHash, Param.string "balanceOf",
              Param.list [t.NewInvokeFunctionStackByteArray
                (sprintfHex (t.B58checkdecode neoAddress).payload)]]
            { ErrorResponse := none, Others := default }).out,
          (makeRequest t n "invokefunction"
            [Param.string tokenHash, Param.string "balanceOf",
              Param.list [t.NewInvokeFunctionStackByteArray
                (sprintfHex (t.B58checkdecode neoAddress).payload)]]
            { ErrorResponse := none, Others := default }).sent) := by
  simp [GetTokenBalance, hv]

/-- A request that `makeRequest` sent is one the HTTP client was applied to, and
an error of the client on it is the error `makeRequest` returns. -/
theorem makeRequest_sent {R Arg Req : Type} (t : Transport R Arg Req) (n : NEORPCClient)
    (method : String) (params : List (Param Arg)) (out : TokenBalanceResponse R)
    (req : HttpRequest) (h : req ∈ (makeRequest t n method params out).sent) :
    (∃ body, t.Do req = .ok body) ∨
      (∃ e, t.Do req = .error e ∧ (makeRequest t n method params out).err = some e) := by
  unfold makeRequest at h ⊢
  cases hnew : t.httpNewRequest "POST" n.Endpoint (t.jsonMarshal (t.NewRequest method params)) with
  | error e =>
    simp only [hnew] at h
    exact absurd h (List.not_mem_nil _)
  | ok r =>
    simp only [hnew] at h ⊢
    split at h
    · rename_i e hdo
      have hreq := List.mem_singleton.mp h
      subst hreq
      exact Or.inr ⟨e, hdo, rfl⟩
    · rename_i body hdo
      split at h
      · have hreq := List.mem_singleton.mp h
        subst hreq
        exact Or.inl ⟨body, hdo⟩
      · have hreq := List.mem_singleton.mp h
        subst hreq
        exact Or.inl ⟨body, hdo⟩

/-- Claim C8, as amended. `GetTokenBalance` tests the version byte that
`btckey.B58checkdecode` returns and nothing else of its result; the decoder's
error is discarded. For every address whose returned version byte is other
than `0x17` it does not proceed: the response is the zero response with
`ErrorResponse` set to code `-1` and the message `err neoAddress(<address>)`,
and no request is sent. A request is sent only for an address whose returned
version byte is `0x17`, and every request sent is one the HTTP client was
applied to. When the version byte is `0x17` the response and the requests sent
are those of `makeRequest` for `invokefunction` with the token hash,
`balanceOf` and the hex of the decoded payload, whatever error the decoder
returned. -/
theorem GetTokenBalance_rejects_wrong_version {R Arg Req : Type} [Inhabited R]
    (t : Transport R Arg Req) (n : NEORPCClient) (tokenHash neoAddress : String) :
    ((t.B58checkdecode neoAddress).ver ≠ 0x17 →
      (GetTokenBalance t n tokenHash neoAddress).1.ErrorResponse =
        some { Code := -1, Message := "err neoAddress(" ++ neoAddress ++ ")" } ∧
      (GetTokenBalance t n tokenHash neoAddress).1.Others = default ∧
      (GetTokenBalance t n tokenHash neoAddress).2 = []) ∧
    ((GetTokenBalance t n tokenHash neoAddress).2 ≠ [] →
      (t.B58checkdecode neoAddress).ver = 0x17) ∧
    (∀ req ∈ (GetTokenBalance t n tokenHash neoAddress).2,
      (∃ body, t.Do req = .ok body) ∨
        (∃ e, t.Do req = .error e ∧
          (GetTokenBalance t n tokenHash neoAddress).1.ErrorResponse = some (makeError e))) ∧
    ((t.B58checkdecode neoAddress).ver = 0x17 →
      (GetTokenBalance t n tokenHash neoAddress).2 =
        (makeRequest t n "invokefunction"
          [Param.string tokenHash, Param.string "balanceOf",
            Param.list [t.NewInvokeFunctionStackByteArray
              (sprintfHex (t.B58checkdecode neoAddress).payload)]]
          { ErrorResponse := none, Others := default }).sent ∧
      ((makeRequest t n "invokefunction"
          [Param.string tokenHash, Param.string "balanceOf",
            Param.list [t.NewInvokeFunctionStackByteArray
              (sprintfHex (t.B58checkdecode neoAddress).payload)]]
          { ErrorResponse := none, Others := default }).err = none →
        (GetTokenBalance t n tokenHash neoAddress).1 =
          (makeRequest t n "invokefunction"
            [Param.string tokenHash, Param.string "balanceOf",
              Param.list [t.NewInvokeFunctionStackByteArray
                (sprintfHex (t.B58checkdecode neoAddress).payload)]]
            { ErrorResponse := none, Others := default }).out)) := by
  refine ⟨?_, ?_, ?_, ?_⟩
  · intro hv
    rw [GetTokenBalance_of_wrong_version t n tokenHash neoAddress hv]
    exact ⟨rfl, rfl, rfl⟩
  · intro hsent
    by_contra hv
    rw [GetTokenBalance_of_wrong_version t n tokenHash neoAddress hv] at hsent
    exact absurd rfl hsent
  · intro req hreq
    by_cases hv : (t.B58checkdecode neoAddress).ver = 0x17
    · rw [GetTokenBalance_of_version t n tokenHash neoAddress hv] at hreq ⊢
      have hs : req ∈ (makeRequest t n "invokefunction"
          [Param.string tokenHash, Param.string "balanceOf",
            Param.list [t.NewInvokeFunctionStackByteArray
              (sprintfHex (t.B58checkdecode neoAddress).payload)]]
          { ErrorResponse := none, Others := default }).sent := by
        split at hreq <;> exact hreq
      rcases makeRequest_sent t n _ _ _ req hs with hok | ⟨e, hdo, herr⟩
      · exact Or.inl hok
      · refine Or.inr ⟨e, hdo, ?_⟩
        simp [herr]
    · rw [GetTokenBalance_of_wrong_version t n tokenHash neoAddress hv] at hreq
      simp at hreq
  · intro hv
    rw [GetTokenBalance_of_version t n tokenHash neoAddress hv]
    constructor
    · split <;> rfl
    · intro herr
      simp [herr]

/-- The statement of C8, as amended, on the example transport: for a string
that decodes to the zero version, the error response names the string and
nothing is sent; for the one address the transport knows, the one request made
was sent with the HTTP client. -/
theorem GetTokenBalance_rejects_wrong_version_witness :
    ((GetTokenBalance exampleTransport exampleClient "a1b2" "not-an-address").1.ErrorResponse =
        some { Code := -1, Message := "err neoAddress(not-an-address)" } ∧
      (GetTokenBalance exampleTransport exampleClient "a1b2" "not-an-address").1.Others = 0 ∧
      (GetTokenBalance exampleTransport exampleClient "a1b2" "not-an-address").2 = []) ∧
    (exampleTransport.B58checkdecode "AK2nJJpJr6o664CWJKi1QRXjqeic2zRp8y").ver = 0x17 :=
  ⟨(GetTokenBalance_rejects_wrong_version exampleTransport exampleClient "a1b2"
      "not-an-address").1 (by decide),
    (GetTokenBalance_rejects_wrong_version exampleTransport exampleClient "a1b2"
      "AK2nJJpJr6o664CWJKi1QRXjqeic2zRp8y").2.1 (by decide)⟩

/-- Claim C8 fails as stated. With a decoder that returns its error next to the
version byte `0x17`, base-58-check decoding of the string fails, and yet
`GetTokenBalance` proceeds: it sends one request, and the response carries the
node's answer and no `ErrorResponse`. -/
theorem GetTokenBalance_proceeds_on_decode_error :
    (lenientTransport.B58checkdecode "AK2nJJpJr6o664CWJKi1QRXjqeic2zRp8z").err ≠ none ∧
    (GetTokenBalance lenientTransport exampleClient "a1b2"
      "AK2nJJpJr6o664CWJKi1QRXjqeic2zRp8z").2.length = 1 ∧
    (GetTokenBalance lenientTransport exampleClient "a1b2"
      "AK2nJJpJr6o664CWJKi1QRXjqeic2zRp8z").1 = { ErrorResponse := none, Others := 42 } := by
  refine ⟨by decide, by decide, by decide⟩

end neorpc

end NeoUtils
